import Mathlib

/-!
Verification of the pumpy serial pump driver (pumpy.py).

The code is shallowly embedded: Python strings become Lean `String`
(manipulated through their `List Char` data), the serial channel becomes a
scripted `Chan` that records every written frame and pops one scripted
response per read, and every operation becomes an explicit state-passing
function whose result distinguishes normal return, a raised PumpError, a
raised ValueError (from int()/float() parses) and a raised IndexError
(from indexing an empty response).
-/

namespace Pumpy

/-- Python str.rstrip(chars) on a list of characters: remove the longest
trailing run of characters belonging to cs. -/
def pyRstripL (cs : List Char) (l : List Char) : List Char :=
  (l.reverse.dropWhile (fun c => c ∈ cs)).reverse

/-- Python str.lstrip(chars) on a list of characters: remove the longest
leading run of characters belonging to cs. -/
def pyLstripL (cs : List Char) (l : List Char) : List Char :=
  l.dropWhile (fun c => c ∈ cs)

/-- remove_crud (pumpy.py lines 14-26) on character lists:
if a dot occurs, strip trailing zeros; then strip leading zeros and
spaces; then strip trailing spaces and dots. -/
def remove_crudL (l : List Char) : List Char :=
  let l1 := if '.' ∈ l then pyRstripL ['0'] l else l
  let l2 := pyLstripL ['0', ' '] l1
  pyRstripL [' ', '.'] l2

/-- remove_crud (pumpy.py lines 14-26) on strings. -/
def remove_crud (s : String) : String := ⟨remove_crudL s.data⟩

example : remove_crud "003.200" = "3.2" := by decide
example : remove_crud "5." = "5" := by decide
example : remove_crud "0030.2000 " = "30.2000" := by decide
example : remove_crud "1.0.0" = "1.0" := by decide
example : remove_crud "1.0" = "1" := by decide

/-- Resolve one bound of a Python slice s[a:b] for a list of length n. -/
def sliceBound (n : Nat) (i : Int) : Nat :=
  if i < 0 then ((n : Int) + i).toNat else min i.toNat n

/-- Python slice l[a:b] with negative-index and clamping semantics. -/
def pySliceL (l : List Char) (a b : Int) : List Char :=
  (l.take (sliceBound l.length b)).drop (sliceBound l.length a)

/-- Python slice s[a:b] on strings. -/
def pySlice (s : String) (a b : Int) : String := ⟨pySliceL s.data a b⟩

/-- Python indexing l[i]: negative indices count from the end; an index
out of bounds yields none (an IndexError in Python). -/
def pyGetL (l : List Char) (i : Int) : Option Char :=
  let j : Int := if i < 0 then (l.length : Int) + i else i
  if j < 0 then none else l.get? j.toNat

/-- Python indexing s[i] on strings. -/
def pyGet (s : String) (i : Int) : Option Char := pyGetL s.data i

example : pySlice "abcdefg" 1 7 = "bcdefg" := by decide
example : pySlice "abcdefg" (-3) (-1) = "ef" := by decide
example : pyGet "abc" (-1) = some 'c' := by decide
example : pyGet "" (-1) = none := by decide

/-- Value of a nonempty all-digit character list, none otherwise. -/
def digitsVal (l : List Char) : Option Nat :=
  if l ≠ [] ∧ l.all Char.isDigit then
    some (l.foldl (fun a c => a * 10 + (c.toNat - 48)) 0)
  else none

/-- Python int(s) restricted to the forms appearing in pump replies:
optional surrounding spaces, an optional sign, then decimal digits.
Returns none where Python raises ValueError. -/
def pyIntL (l : List Char) : Option Int :=
  let t := pyLstripL [' '] (pyRstripL [' '] l)
  match t with
  | '-' :: rest => (digitsVal rest).map (fun n => -(n : Int))
  | '+' :: rest => (digitsVal rest).map (fun n => (n : Int))
  | _ => (digitsVal t).map (fun n => (n : Int))

/-- Python int(s) on strings. -/
def pyInt (s : String) : Option Int := pyIntL s.data

/-- An exact decimal number mant / 10 ^ exp. The decimal field values the
driver parses and compares are at most six significant characters wide, so
Python float comparisons and equality tests between two such parsed values
coincide with exact decimal comparison, which this type models exactly.
The one place the source performs float arithmetic before converting to an
integer - the MightyMini flow-rate readback int(float(s) * 1000) - is
modelled separately by the binary64 functions d64OfDecimal, d64Mul1000 and
intFloatMul1000 below, which follow IEEE-754 round-to-nearest-even. -/
structure Dec where
  mant : Int
  exp : Nat
deriving Repr, DecidableEq

/-- Numeric equality of exact decimals, by cross multiplication. -/
def Dec.eqb (a b : Dec) : Bool :=
  a.mant * 10 ^ b.exp == b.mant * 10 ^ a.exp

/-- Numeric strict order on exact decimals, by cross multiplication. -/
def Dec.ltb (a b : Dec) : Bool :=
  decide (a.mant * 10 ^ b.exp < b.mant * 10 ^ a.exp)

/-- A decimal from an integer. -/
def Dec.ofInt (n : Int) : Dec := ⟨n, 0⟩

/-- The rational value of an exact decimal (for specification reading). -/
def Dec.val (d : Dec) : ℚ := (d.mant : ℚ) / (10 : ℚ) ^ d.exp

/-- Python float(s) restricted to plain decimal literals: optional
surrounding spaces, optional sign, digits with at most one decimal point,
at least one digit overall. Returns none where Python raises ValueError. -/
def pyFloatL (l : List Char) : Option Dec :=
  let t := pyLstripL [' '] (pyRstripL [' '] l)
  let signed : Int × List Char :=
    match t with
    | '-' :: rest => (-1, rest)
    | '+' :: rest => (1, rest)
    | _ => (1, t)
  let ip := signed.2.takeWhile (fun c => c ≠ '.')
  let fpl :=
    match signed.2.dropWhile (fun c => c ≠ '.') with
    | [] => []
    | _ :: rest => rest
  match digitsVal (ip ++ fpl) with
  | none => none
  | some n => some ⟨signed.1 * (n : Int), fpl.length⟩

/-- Python float(s) on strings. -/
def pyFloat (s : String) : Option Dec := pyFloatL s.data

/-- Multiply an exact decimal by an integer. -/
def Dec.mulInt (d : Dec) (k : Int) : Dec := ⟨d.mant * k, d.exp⟩

/-- Bit length of a natural number, by fuel-based structural recursion;
the fuel n always suffices because the bit length of n is at most n. -/
def bitlenAux : Nat → Nat → Nat
  | 0, _ => 0
  | f + 1, n => if n = 0 then 0 else bitlenAux f (n / 2) + 1

/-- Bit length of a natural number. -/
def bitlen (n : Nat) : Nat := bitlenAux n n

/-- Round a / b to the nearest integer, ties to even (for b positive). -/
def roundEvenDiv (a b : Nat) : Nat :=
  let q := a / b
  let r := a % b
  if 2 * r > b then q + 1
  else if 2 * r < b then q
  else if q % 2 = 1 then q + 1 else q

/-- Round the nonnegative decimal n / 10 ^ k to the nearest IEEE-754
binary64, ties to even: the result (m, e) denotes the magnitude m * 2 ^ e
with 2 ^ 52 ≤ m < 2 ^ 53, or (0, 0) for zero. The candidate exponent from
the bit lengths is off by at most one and is corrected by one comparison.
The values the driver can see sit far inside the normal binary64 range,
so neither subnormals nor overflow arise here. -/
def d64OfDecimal (n k : Nat) : Nat × Int :=
  if n = 0 then (0, 0)
  else
    let d := 10 ^ k
    let e1 : Int := (bitlen n : Int) - (bitlen d : Int)
    let ge : Int → Bool := fun E =>
      if 0 ≤ E then 2 ^ E.toNat * d ≤ n else d ≤ n * 2 ^ (-E).toNat
    let E := if ge e1 then e1 else e1 - 1
    let t : Int := 52 - E
    let m0 :=
      if 0 ≤ t then roundEvenDiv (n * 2 ^ t.toNat) d
      else roundEvenDiv n (d * 2 ^ (-t).toNat)
    if m0 = 2 ^ 53 then (2 ^ 52, E + 1 - 52) else (m0, E - 52)

/-- Binary64 multiplication of the magnitude (m, e) by 1000, rounded to
nearest, ties to even. -/
def d64Mul1000 (me : Nat × Int) : Nat × Int :=
  if me.1 = 0 then (0, 0)
  else
    let p := me.1 * 1000
    let s := bitlen p - 53
    let m0 := roundEvenDiv p (2 ^ s)
    if m0 = 2 ^ 53 then (2 ^ 52, me.2 + s + 1) else (m0, me.2 + s)

/-- Truncation of the binary64 magnitude (m, e) to a natural number. -/
def d64TruncNat (me : Nat × Int) : Nat :=
  if 0 ≤ me.2 then me.1 * 2 ^ me.2.toNat else me.1 / 2 ^ (-me.2).toNat

/-- Python int(float(s) * 1000) for the decimal value d of the string s:
round the parsed decimal to the nearest binary64 (the correctly rounded
conversion CPython performs), multiply by 1000 in binary64 with
round-to-nearest-even, then truncate toward zero as int() does. Because
of the two roundings this can differ from the exact product: for example
the field "8.165" yields 8164, not 8165. -/
def intFloatMul1000 (d : Dec) : Int :=
  let v := d64TruncNat (d64Mul1000 (d64OfDecimal d.mant.natAbs d.exp))
  if d.mant < 0 then -(v : Int) else (v : Int)

example : pyFloat "3.2" = some ⟨32, 1⟩ := by decide
example : pyFloat "" = none := by decide
example : pyFloat "2." = some ⟨2, 0⟩ := by decide
example : pyFloat ".5" = some ⟨5, 1⟩ := by decide
example : pyFloat "1.0.0" = none := by decide
example : Dec.eqb ⟨32, 1⟩ ⟨320, 2⟩ = true := by decide
example : Dec.ltb ⟨9, 2⟩ ⟨1, 1⟩ = true := by decide
example : intFloatMul1000 ⟨8165, 3⟩ = 8164 := by decide
example : intFloatMul1000 ⟨150, 3⟩ = 150 := by decide
example : intFloatMul1000 ⟨15, 2⟩ = 150 := by decide
example : intFloatMul1000 ⟨-999, 2⟩ = -9990 := by decide
example : intFloatMul1000 ⟨9999, 3⟩ = 9999 := by decide
example : intFloatMul1000 ⟨99999, 0⟩ = 99999000 := by decide
example : intFloatMul1000 ⟨0, 3⟩ = 0 := by decide
example : pyInt "us" = none := by decide
example : pyInt " 12" = some 12 := by decide

/-- Python substring containment needle in hay. -/
def containsSub (needle : List Char) (hay : List Char) : Bool :=
  match hay with
  | [] => needle.isEmpty
  | _ :: t => needle.isPrefixOf hay || containsSub needle t

/-- Substring containment on strings, modelling the Python in operator. -/
def strContains (needle hay : String) : Bool := containsSub needle.data hay.data

example : strContains "OOR" "xxOORyy" = true := by decide
example : strContains "OOR" "xxOO" = false := by decide

/-!
The serial channel. A run is scripted: pending holds the response handed
back by each successive serial.read call (an exhausted script reads as the
empty string, the read timeout with no bytes), written logs every frame
passed to serial.write in order, closed records serial.close.
-/

/-- A scripted serial channel. -/
structure Chan where
  pending : List String
  written : List String
  closed : Bool
deriving Repr, DecidableEq

/-- serial.write: append the frame to the log of written frames. -/
def chanWrite (frame : String) (c : Chan) : Chan :=
  { c with written := c.written ++ [frame] }

/-- serial.read: pop the next scripted response, or the empty string when
the script is exhausted (timeout with no bytes). -/
def chanRead (c : Chan) : String × Chan :=
  match c.pending with
  | [] => ("", c)
  | r :: rest => (r, { c with pending := rest })

/-- serial.close. -/
def chanClose (c : Chan) : Chan := { c with closed := true }

/-- Outcome of one Python call: normal return with a value, or a raised
PumpError, ValueError (failed int()/float() parse) or IndexError
(indexing into an empty response). -/
inductive Res (α : Type) where
  | ok (val : α)
  | pumpError
  | valueError
  | indexError
deriving Repr, DecidableEq

/-- Re-raise an exception at another value type (used only on the three
error constructors, never on ok). -/
def Res.reraise {α β : Type} : Res α → Res β
  | .ok _ => .pumpError
  | .pumpError => .pumpError
  | .valueError => .valueError
  | .indexError => .indexError

/-- True when the last response character is one of the Pump11/Pump33
status trailers colon, less-than, greater-than. -/
def trailerOk (resp : String) : Bool :=
  pyGet resp (-1) == some ':' || pyGet resp (-1) == some '<' ||
    pyGet resp (-1) == some '>'

/-!
Pump (Harvard Pump 11 protocol), pumpy.py lines 51-286. Pump.write sends
address + command + CR; Pump.read reads and raises PumpError on a
zero-length response. Operations always pair the two, so they are embedded
as one command round trip. The byte-count argument of read is kept for
reference; the scripted channel hands back whole responses.
-/

/-- Pump.write followed by Pump.read: send the frame, then read; none
models the PumpError that Pump.read raises on a zero-length response. -/
def pump_cmd (addr cmd : String) (_numBytes : Nat) (c : Chan) :
    Option String × Chan :=
  let c1 := chanWrite (addr ++ cmd ++ "\r") c
  let (r, c2) := chanRead c1
  if r = "" then (none, c2) else (some r, c2)

/-- Cached state of a Pump object: diameter (stored as float), flowrate
(stored as the returned string, line 194), targetvolume (stored as float). -/
structure PumpState where
  diameter : Option Dec
  flowrate : Option String
  targetvolume : Option Dec
deriving Repr, DecidableEq

/-- The all-unset state a fresh Pump starts with. -/
def PumpState.init : PumpState := ⟨none, none, none⟩

/-- Two-digit address field "\x7b0:02.0f\x7d".format(address). -/
def addrString (address : Nat) : String :=
  if address < 10 then "0" ++ toString address else toString address

/-- Pump.__init__ (lines 62-88): probe with VER, compare the address
embedded at resp[-3:-1] with the configured address; on PumpError close
the channel and re-raise. A failed int() parse raises ValueError, which
the except PumpError clause does not catch, so the channel stays open. -/
def Pump.init (address : Nat) (c : Chan) : Res Unit × Chan :=
  match pump_cmd (addrString address) "VER" 17 c with
  | (none, c1) => (.pumpError, chanClose c1)
  | (some resp, c1) =>
    match pyInt (pySlice resp (-3) (-1)) with
    | none => (.valueError, c1)
    | some n =>
      if n ≠ (address : Int) then (.pumpError, chanClose c1)
      else (.ok (), c1)

/-- The field-width truncation setdiameter applies to str(diameter)
(lines 117-129): clip at the width-5 or width-4 point depending on where
the decimal point sits, then remove crud. -/
def Pump.truncDia (dstr : String) : String :=
  if dstr.data.length > 5 then
    remove_crud
      (if pyGet dstr 2 = some '.' then pySlice dstr 0 5
       else if pyGet dstr 1 = some '.' then pySlice dstr 0 4
       else dstr)
  else remove_crud dstr

/-- Truncation to a maximum field width followed by crud removal, the
pattern used by setflowrate and the Pump33 numeric setters. -/
def truncCrud (width : Nat) (s : String) : String :=
  if s.data.length > width then remove_crud (pySlice s 0 (width : Int))
  else remove_crud s

/-- Pump.setdiameter (lines 106-155). diameter is the numeric value of
the Python float argument, dstr its str() rendering. -/
def Pump.setdiameter (addr : String) (diameter : Dec) (dstr : String)
    (st : PumpState) (c : Chan) : Res Unit × PumpState × Chan :=
  if Dec.ltb (Dec.ofInt 35) diameter ∨ Dec.ltb diameter ⟨1, 1⟩ then
    (.pumpError, st, c)
  else
    let dia := Pump.truncDia dstr
    match pump_cmd addr ("MMD" ++ dia) 5 c with
    | (none, c1) => (.pumpError, st, c1)
    | (some resp, c1) =>
      if trailerOk resp then
        match pump_cmd addr "DIA" 15 c1 with
        | (none, c2) => (.pumpError, st, c2)
        | (some resp2, c2) =>
          let returned := remove_crud (pySlice resp2 3 9)
          if returned ≠ dia then (.ok (), st, c2)
          else
            match pyFloat returned with
            | none => (.valueError, st, c2)
            | some q => (.ok (), { st with diameter := some q }, c2)
      else (.pumpError, st, c1)

/-- Pump.setflowrate (lines 157-201). fstr is str(flowrate). -/
def Pump.setflowrate (addr : String) (fstr : String) (st : PumpState)
    (c : Chan) : Res Unit × PumpState × Chan :=
  let fr := truncCrud 5 fstr
  match pump_cmd addr ("ULM" ++ fr) 5 c with
  | (none, c1) => (.pumpError, st, c1)
  | (some resp, c1) =>
    if trailerOk resp then
      match pump_cmd addr "RAT" 150 c1 with
      | (none, c2) => (.pumpError, st, c2)
      | (some resp2, c2) =>
        let returned := remove_crud (pySlice resp2 2 8)
        if returned ≠ fr then (.ok (), st, c2)
        else (.ok (), { st with flowrate := some returned }, c2)
    else if strContains "OOR" resp then (.pumpError, st, c1)
    else (.pumpError, st, c1)

/-- The direction-correction loop of Pump.infuse (lines 207-212): while
the trailer is not greater-than, re-issue REV on less-than, raise on
anything else; each later response is read with serial.read directly,
bypassing the zero-length guard of Pump.read, so an empty read makes the
resp[-1] access raise IndexError. An exhausted script reads as the empty
string, which is inlined here as the terminating IndexError case. -/
def Pump.infuseLoop (addr resp : String) (pending written : List String)
    (closed : Bool) : Res Unit × Chan :=
  match pyGet resp (-1) with
  | none => (.indexError, ⟨pending, written, closed⟩)
  | some ch =>
    if ch = '>' then (.ok (), ⟨pending, written, closed⟩)
    else if ch = '<' then
      let written1 := written ++ [addr ++ "REV" ++ "\r"]
      match pending with
      | [] => (.indexError, ⟨[], written1, closed⟩)
      | r :: rest => Pump.infuseLoop addr r rest written1 closed
    else (.pumpError, ⟨pending, written, closed⟩)

/-- Pump.infuse (lines 203-214): write RUN, read the first response
through Pump.read, then run the direction-correction loop. -/
def Pump.infuse (addr : String) (c : Chan) : Res Unit × Chan :=
  match pump_cmd addr "RUN" 5 c with
  | (none, c1) => (.pumpError, c1)
  | (some resp, c1) => Pump.infuseLoop addr resp c1.pending c1.written c1.closed

/-- Pump.settargetvolume (lines 241-253). tvstr is str(targetvolume);
on an accepted trailer the cache is set to float(targetvolume). -/
def Pump.settargetvolume (addr : String) (tvstr : String) (st : PumpState)
    (c : Chan) : Res Unit × PumpState × Chan :=
  match pump_cmd addr ("MLT" ++ tvstr) 5 c with
  | (none, c1) => (.pumpError, st, c1)
  | (some resp, c1) =>
    if trailerOk resp then
      match pyFloat tvstr with
      | none => (.valueError, st, c1)
      | some q => (.ok (), { st with targetvolume := some q }, c1)
    else (.pumpError, st, c1)

/-!
PHD2000 (pumpy.py lines 288-327): inherits Pump; settargetvolume converts
to millilitres, truncates to five characters, and has no else branch for
an unrecognized trailer, so it returns silently there.
-/

/-- PHD2000.settargetvolume (lines 306-327). tvMl is the numeric value of
float(targetvolume) / 1000.0 and tvMlStr its str() rendering; on an
accepted trailer the cache becomes float(truncated string) * 1000. -/
def PHD2000.settargetvolume (addr : String) (tvMlStr : String)
    (st : PumpState) (c : Chan) : Res Unit × PumpState × Chan :=
  let tv := if tvMlStr.data.length > 5 then pySlice tvMlStr 0 5 else tvMlStr
  match pump_cmd addr ("MLT" ++ tv) 5 c with
  | (none, c1) => (.pumpError, st, c1)
  | (some resp, c1) =>
    if trailerOk resp then
      match pyFloat tv with
      | none => (.valueError, st, c1)
      | some q => (.ok (), { st with targetvolume := some (Dec.mulInt q 1000) }, c1)
    else (.ok (), st, c1)

/-!
MightyMini (pumpy.py lines 330-387): raw serial traffic, literal OK
status, no address field.
-/

/-- Cached state of a MightyMini object. -/
structure MMState where
  flowrate : Option Int
deriving Repr, DecidableEq

/-- Zero-padded field "\x7b:04d\x7d".format(n). -/
def fmt04 (n : Int) : String :=
  let pad (w : Nat) (s : String) : String :=
    ⟨List.replicate (w - s.data.length) '0' ++ s.data⟩
  if n < 0 then "-" ++ pad 3 (toString (-n)) else pad 4 (toString n)

/-- MightyMini.setflowrate (lines 343-371): clamp to 9999, send FM with a
four-digit field, require the literal OK, then verify against the CC
report, computing returned_flowrate = int(float(resp[5:-1]) * 1000) in
binary64 arithmetic through intFloatMul1000; a mismatch raises PumpError
(line 360). flushInput clears bytes already buffered, which the scripted
channel does not hold, so it is a no-op here. flowrate is the value after
int(flowrate). -/
def MightyMini.setflowrate (flowrate : Int) (st : MMState) (c : Chan) :
    Res Unit × MMState × Chan :=
  let fr := if flowrate > 9999 then 9999 else flowrate
  let c1 := chanWrite ("FM" ++ fmt04 fr) c
  let (resp, c2) := chanRead c1
  if resp = "" then (.pumpError, st, c2)
  else
    match pyGet resp 0 with
    | none => (.indexError, st, c2)
    | some ch0 =>
      if ch0 = 'O' then
        match pyGet resp 1 with
        | none => (.indexError, st, c2)
        | some ch1 =>
          if ch1 = 'K' then
            let c3 := chanWrite "CC" c2
            let (resp2, c4) := chanRead c3
            match pyFloat (pySlice resp2 5 (-1)) with
            | none => (.valueError, st, c4)
            | some q =>
              let returned := intFloatMul1000 q
              if returned ≠ fr then (.pumpError, st, c4)
              else (.ok (), { st with flowrate := some returned }, c4)
          else (.pumpError, st, c2)
      else (.pumpError, st, c2)

/-- MightyMini.infuse (lines 373-379): write RU, raise PumpError only on
an empty response; the OK test guards nothing but a log line, so any
other nonempty response returns silently. resp[1] is still evaluated when
resp[0] is O, so a one-character "O" response raises IndexError. -/
def MightyMini.infuse (c : Chan) : Res Unit × Chan :=
  let c1 := chanWrite "RU" c
  let (resp, c2) := chanRead c1
  if resp = "" then (.pumpError, c2)
  else
    match pyGet resp 0 with
    | none => (.indexError, c2)
    | some ch0 =>
      if ch0 = 'O' then
        match pyGet resp 1 with
        | none => (.indexError, c2)
        | some ch1 => if ch1 = 'K' then (.ok (), c2) else (.ok (), c2)
      else (.ok (), c2)

/-- MightyMini.stop (lines 381-387): same shape as infuse with ST. -/
def MightyMini.stop (c : Chan) : Res Unit × Chan :=
  let c1 := chanWrite "ST" c
  let (resp, c2) := chanRead c1
  if resp = "" then (.pumpError, c2)
  else
    match pyGet resp 0 with
    | none => (.indexError, c2)
    | some ch0 =>
      if ch0 = 'O' then
        match pyGet resp 1 with
        | none => (.indexError, c2)
        | some ch1 => if ch1 = 'K' then (.ok (), c2) else (.ok (), c2)
      else (.ok (), c2)

/-!
Pump33 (pumpy.py lines 390-832): dual-syringe pump. Pump33.write sends
the frame and reads the response in one method, raising PumpError on a
zero-length response; p33_cmd embeds that method.
-/

/-- Pump33.write (lines 442-449): send address + command + CR and read
read_bytes; none models the PumpError raised on an empty response. -/
def p33_cmd (addr cmd : String) (_readBytes : Nat) (c : Chan) :
    Option String × Chan :=
  let c1 := chanWrite (addr ++ cmd ++ "\r") c
  let (r, c2) := chanRead c1
  if r = "" then (none, c2) else (some r, c2)

/-- Cached state of a Pump33 object (lines 405-411). -/
structure P33State where
  mode : Option String
  diameter1 : Option Dec
  diameter2 : Option Dec
  flowrate1 : Option Dec
  flowrate2 : Option Dec
  direction1 : Option String
  direction2 : Option String
deriving Repr, DecidableEq

/-- The all-unset state a fresh Pump33 starts with. -/
def P33State.init : P33State := ⟨none, none, none, none, none, none, none⟩

/-- Pump33.__init__ (lines 401-434): probe with VER exactly as Pump does;
the except PumpError clause closes the channel, a ValueError from int()
escapes without closing. -/
def Pump33.init (address : Nat) (c : Chan) : Res Unit × Chan :=
  match p33_cmd (addrString address) "VER" 11 c with
  | (none, c1) => (.pumpError, chanClose c1)
  | (some resp, c1) =>
    match pyInt (pySlice resp (-3) (-1)) with
    | none => (.valueError, c1)
    | some n =>
      if n ≠ (address : Int) then (.pumpError, chanClose c1)
      else (.ok (), c1)

/-- Pump33.setdiameter1 (lines 482-528). diameter is the numeric value of
the Python float argument, dstr its str() rendering. -/
def Pump33.setdiameter1 (addr : String) (diameter : Dec) (dstr : String)
    (st : P33State) (c : Chan) : Res Unit × P33State × Chan :=
  if Dec.ltb (Dec.ofInt 50) diameter ∨ Dec.ltb diameter ⟨1, 1⟩ then
    (.pumpError, st, c)
  else
    let dia := truncCrud 6 dstr
    match p33_cmd addr ("DIA A" ++ dia) 5 c with
    | (none, c1) => (.pumpError, st, c1)
    | (some resp, c1) =>
      if trailerOk resp then
        match p33_cmd addr "DIA A" 15 c1 with
        | (none, c2) => (.pumpError, st, c2)
        | (some resp2, c2) =>
          let returned := pySlice resp2 1 (-4)
          match pyFloat returned, pyFloat dia with
          | some x, some y =>
            if ¬ Dec.eqb x y then (.ok (), st, c2)
            else (.ok (), { st with diameter1 := some x }, c2)
          | _, _ => (.valueError, st, c2)
      else (.pumpError, st, c1)

/-- Pump33.setdiameter2 (lines 530-585): first query MOD and raise unless
the pump reports PRO, then proceed as setdiameter1 does on syringe B. -/
def Pump33.setdiameter2 (addr : String) (diameter : Dec) (dstr : String)
    (st : P33State) (c : Chan) : Res Unit × P33State × Chan :=
  match p33_cmd addr "MOD" 15 c with
  | (none, c0) => (.pumpError, st, c0)
  | (some respM, c0) =>
    if pySlice respM 1 (-4) ≠ "PRO" then (.pumpError, st, c0)
    else if Dec.ltb (Dec.ofInt 50) diameter ∨ Dec.ltb diameter ⟨1, 1⟩ then
      (.pumpError, st, c0)
    else
      let dia := truncCrud 6 dstr
      match p33_cmd addr ("DIA B" ++ dia) 5 c0 with
      | (none, c1) => (.pumpError, st, c1)
      | (some resp, c1) =>
        if trailerOk resp then
          match p33_cmd addr "DIA B" 15 c1 with
          | (none, c2) => (.pumpError, st, c2)
          | (some resp2, c2) =>
            let returned := pySlice resp2 1 (-4)
            match pyFloat returned, pyFloat dia with
            | some x, some y =>
              if ¬ Dec.eqb x y then (.ok (), st, c2)
              else (.ok (), { st with diameter2 := some x }, c2)
            | _, _ => (.valueError, st, c2)
        else (.pumpError, st, c1)

/-- Pump33.setflowrate1 (lines 587-634). fstr is str(flowrate). -/
def Pump33.setflowrate1 (addr : String) (fstr : String) (st : P33State)
    (c : Chan) : Res Unit × P33State × Chan :=
  let fr := truncCrud 6 fstr
  match p33_cmd addr ("RAT A" ++ fr ++ "UM") 5 c with
  | (none, c1) => (.pumpError, st, c1)
  | (some resp, c1) =>
    if trailerOk resp then
      match p33_cmd addr "RAT A" 20 c1 with
      | (none, c2) => (.pumpError, st, c2)
      | (some resp2, c2) =>
        let returned := remove_crud (pySlice resp2 1 7)
        match pyFloat returned, pyFloat fr with
        | some x, some y =>
          if ¬ Dec.eqb x y then (.ok (), st, c2)
          else (.ok (), { st with flowrate1 := some x }, c2)
        | _, _ => (.valueError, st, c2)
    else if strContains "OOR" resp then (.pumpError, st, c1)
    else (.pumpError, st, c1)

/-- Pump33.setflowrate2 (lines 636-688): first query MOD and raise unless
the pump reports PRO, then proceed on syringe B; the verify read uses the
default five-byte budget. -/
def Pump33.setflowrate2 (addr : String) (fstr : String) (st : P33State)
    (c : Chan) : Res Unit × P33State × Chan :=
  match p33_cmd addr "MOD" 15 c with
  | (none, c0) => (.pumpError, st, c0)
  | (some respM, c0) =>
    if pySlice respM 1 (-4) ≠ "PRO" then (.pumpError, st, c0)
    else
      let fr := truncCrud 6 fstr
      match p33_cmd addr ("RAT B" ++ fr ++ "UM") 5 c0 with
      | (none, c1) => (.pumpError, st, c1)
      | (some resp, c1) =>
        if trailerOk resp then
          match p33_cmd addr "RAT B" 5 c1 with
          | (none, c2) => (.pumpError, st, c2)
          | (some resp2, c2) =>
            let returned := remove_crud (pySlice resp2 1 7)
            match pyFloat returned, pyFloat fr with
            | some x, some y =>
              if ¬ Dec.eqb x y then (.ok (), st, c2)
              else (.ok (), { st with flowrate2 := some x }, c2)
            | _, _ => (.valueError, st, c2)
        else if strContains "OOR" resp then (.pumpError, st, c1)
        else (.pumpError, st, c1)

/-- Pump33.get_other_direction (lines 728-729). -/
def get_other_direction (direction : String) : String :=
  if direction = "INFUSE" then "REFILL" else "INFUSE"

/-- Pump33.get_direction_2 (lines 731-743): read DIR and PAR and compute
the syringe 2 direction from the two register values alone; the function
takes no stored pump state. -/
def get_direction_2 (addr : String) (c : Chan) : Res String × Chan :=
  match p33_cmd addr "DIR" 15 c with
  | (none, c1) => (.pumpError, c1)
  | (some r1, c1) =>
    let direction1 := pySlice r1 1 7
    match p33_cmd addr "PAR" 15 c1 with
    | (none, c2) => (.pumpError, c2)
    | (some r2, c2) =>
      let parallel := pySlice r2 1 (-4)
      if parallel = "ON" then (.ok direction1, c2)
      else (.ok (get_other_direction direction1), c2)

/-- Pump33.par (lines 794-832): read PAR, write the complementary setting,
verify with another PAR read logging (not raising) on failure; an
unrecognized trailer after the toggle falls through silently, and an
unrecognized original value raises PumpError. -/
def Pump33.par (addr : String) (c : Chan) : Res Unit × Chan :=
  match p33_cmd addr "PAR" 15 c with
  | (none, c1) => (.pumpError, c1)
  | (some r1, c1) =>
    let original_par := pySlice r1 1 (-4)
    if original_par = "ON" then
      match p33_cmd addr "PAR OFF" 5 c1 with
      | (none, c2) => (.pumpError, c2)
      | (some r2, c2) =>
        if trailerOk r2 then
          match p33_cmd addr "PAR" 15 c2 with
          | (none, c3) => (.pumpError, c3)
          | (some _, c3) => (.ok (), c3)
        else (.ok (), c2)
    else if original_par = "OFF" then
      match p33_cmd addr "PAR ON" 5 c1 with
      | (none, c2) => (.pumpError, c2)
      | (some r2, c2) =>
        if trailerOk r2 then
          match p33_cmd addr "PAR" 15 c2 with
          | (none, c3) => (.pumpError, c3)
          | (some _, c3) => (.ok (), c3)
        else (.ok (), c2)
    else (.pumpError, c1)

/-- The verification tail of Pump33.setdirection1 (lines 706-726): check
the trailer of resp, re-read DIR, resolve REVERSE to the complementary
direction, and cache on a match. -/
def Pump33.setdirection1Check (addr direction resp : String)
    (st : P33State) (c : Chan) : Res Unit × P33State × Chan :=
  if trailerOk resp then
    match p33_cmd addr "DIR" 15 c with
    | (none, c1) => (.pumpError, st, c1)
    | (some r3, c1) =>
      let returned_direction := pySlice r3 1 7
      let direction1 :=
        if direction = "REVERSE" then get_other_direction direction
        else direction
      if returned_direction ≠ direction1 then (.ok (), st, c1)
      else (.ok (), { st with direction1 := some direction1 }, c1)
  else (.pumpError, st, c)

/-- Pump33.setdirection1 (lines 690-726): read DIR; when the six-character
reading differs from the requested direction, issue DIR REV and toggle the
parallel flag back through par; then verify. -/
def Pump33.setdirection1 (addr direction : String) (st : P33State)
    (c : Chan) : Res Unit × P33State × Chan :=
  if direction ∉ ["INFUSE", "REFILL", "REVERSE"] then (.pumpError, st, c)
  else
    match p33_cmd addr "DIR" 15 c with
    | (none, c1) => (.pumpError, st, c1)
    | (some r1, c1) =>
      let original_dir := pySlice r1 1 7
      if original_dir ≠ direction then
        match p33_cmd addr "DIR REV" 5 c1 with
        | (none, c2) => (.pumpError, st, c2)
        | (some r2, c2) =>
          match Pump33.par addr c2 with
          | (.ok _, c3) => Pump33.setdirection1Check addr direction r2 st c3
          | (e, c3) => (e.reraise, st, c3)
      else Pump33.setdirection1Check addr direction r1 st c1

/-- Pump33.setdirection2 (lines 745-778): derive the current syringe 2
direction, toggle the parallel flag when the request differs, resolve
REVERSE against the starting direction, then read PAR and verify by
re-deriving; no mode query is made anywhere. -/
def Pump33.setdirection2 (addr direction : String) (st : P33State)
    (c : Chan) : Res Unit × P33State × Chan :=
  if direction ∉ ["INFUSE", "REFILL", "REVERSE"] then (.pumpError, st, c)
  else
    match get_direction_2 addr c with
    | (.ok start2, c1) =>
      let afterToggle : Res Unit × Chan :=
        if direction ≠ start2 then Pump33.par addr c1 else (.ok (), c1)
      match afterToggle with
      | (.ok _, c2) =>
        let direction2 :=
          if direction = "REVERSE" then get_other_direction start2
          else direction
        match p33_cmd addr "PAR" 15 c2 with
        | (none, c3) => (.pumpError, st, c3)
        | (some resp, c3) =>
          if trailerOk resp then
            match get_direction_2 addr c3 with
            | (.ok d2, c4) =>
              if d2 = direction2 then
                (.ok (), { st with direction2 := some direction2 }, c4)
              else (.ok (), st, c4)
            | (e, c4) => (e.reraise, st, c4)
          else (.pumpError, st, c3)
      | (e, c2) => (e.reraise, st, c2)
    | (e, c1) => (e.reraise, st, c1)

/-!
Structure lemmas about the strip primitives, leading to the crud-removal
theorems.
-/

theorem head_dropWhile_false (p : Char → Bool) (l : List Char) (c : Char)
    (h : (l.dropWhile p).head? = some c) : p c = false := by
  induction l with
  | nil => simp [List.dropWhile] at h
  | cons a t ih =>
    rw [List.dropWhile_cons] at h
    by_cases hp : p a
    · rw [if_pos hp] at h
      exact ih h
    · rw [if_neg hp] at h
      simp only [List.head?_cons, Option.some.injEq] at h
      subst h
      exact Bool.eq_false_iff.mpr hp

theorem dropWhile_eq_self_of_head (p : Char → Bool) (l : List Char)
    (h : ∀ c, l.head? = some c → p c = false) : l.dropWhile p = l := by
  cases l with
  | nil => rfl
  | cons a t =>
    have ha := h a rfl
    rw [List.dropWhile_cons, if_neg (by simp [ha])]

theorem pyRstripL_getLast (cs l : List Char) (c : Char)
    (h : (pyRstripL cs l).getLast? = some c) : c ∉ cs := by
  unfold pyRstripL at h
  rw [List.getLast?_reverse] at h
  have := head_dropWhile_false _ _ _ h
  simpa using this

theorem pyLstripL_head (cs l : List Char) (c : Char)
    (h : (pyLstripL cs l).head? = some c) : c ∉ cs := by
  unfold pyLstripL at h
  have := head_dropWhile_false _ _ _ h
  simpa using this

theorem pyRstripL_eq_self (cs l : List Char)
    (h : ∀ c, l.getLast? = some c → c ∉ cs) : pyRstripL cs l = l := by
  unfold pyRstripL
  rw [dropWhile_eq_self_of_head _ _ (fun c hc => by
    rw [List.head?_reverse] at hc
    simpa using h c hc)]
  exact l.reverse_reverse

theorem pyLstripL_eq_self (cs l : List Char)
    (h : ∀ c, l.head? = some c → c ∉ cs) : pyLstripL cs l = l :=
  dropWhile_eq_self_of_head _ _ (fun c hc => by simpa using h c hc)

theorem pyRstripL_decomp (cs l : List Char) :
    ∃ t, l = pyRstripL cs l ++ t ∧ ∀ c ∈ t, c ∈ cs := by
  refine ⟨(l.reverse.takeWhile (fun c => c ∈ cs)).reverse, ?_, ?_⟩
  · unfold pyRstripL
    have key := List.takeWhile_append_dropWhile (fun c => decide (c ∈ cs)) l.reverse
    calc l = l.reverse.reverse := l.reverse_reverse.symm
    _ = (l.reverse.takeWhile (fun c => decide (c ∈ cs)) ++
          l.reverse.dropWhile (fun c => decide (c ∈ cs))).reverse := by rw [key]
    _ = _ := by rw [List.reverse_append]
  · intro c hc
    rw [List.mem_reverse] at hc
    simpa using List.mem_takeWhile_imp hc

theorem pyLstripL_decomp (cs l : List Char) :
    ∃ t, l = t ++ pyLstripL cs l ∧ ∀ c ∈ t, c ∈ cs := by
  refine ⟨l.takeWhile (fun c => c ∈ cs), ?_, ?_⟩
  · unfold pyLstripL
    rw [List.takeWhile_append_dropWhile]
  · intro c hc
    simpa using List.mem_takeWhile_imp hc

theorem head_of_append (u t : List Char) (c : Char) (h : u.head? = some c) :
    (u ++ t).head? = some c := by
  cases u with
  | nil => simp at h
  | cons a s => simpa using h

/-- The head of the crud-removal output is neither a zero nor a space. -/
theorem remove_crudL_head (l : List Char) (c : Char)
    (h : (remove_crudL l).head? = some c) : c ≠ '0' ∧ c ≠ ' ' := by
  have h2 : (remove_crudL l).head? = some c := h
  show _
  have hstep :
      remove_crudL l =
        pyRstripL [' ', '.']
          (pyLstripL ['0', ' '] (if '.' ∈ l then pyRstripL ['0'] l else l)) := rfl
  rw [hstep] at h2
  obtain ⟨t, ht, _⟩ := pyRstripL_decomp [' ', '.']
    (pyLstripL ['0', ' '] (if '.' ∈ l then pyRstripL ['0'] l else l))
  have hh : (pyLstripL ['0', ' ']
      (if '.' ∈ l then pyRstripL ['0'] l else l)).head? = some c := by
    rw [ht]
    exact head_of_append _ _ _ h2
  have hmem := pyLstripL_head _ _ _ hh
  exact ⟨fun hc0 => hmem (by simp [hc0]), fun hcs => hmem (by simp [hcs])⟩

/-- The last character of the crud-removal output is neither a space nor
a dot. -/
theorem remove_crudL_getLast (l : List Char) (c : Char)
    (h : (remove_crudL l).getLast? = some c) : c ≠ ' ' ∧ c ≠ '.' := by
  have hstep :
      remove_crudL l =
        pyRstripL [' ', '.']
          (pyLstripL ['0', ' '] (if '.' ∈ l then pyRstripL ['0'] l else l)) := rfl
  rw [hstep] at h
  have hmem := pyRstripL_getLast _ _ _ h
  exact ⟨fun hcs => hmem (by simp [hcs]), fun hcd => hmem (by simp [hcd])⟩

/-- Crud removal is a fixpoint on any list whose cleaned form does not
both contain a dot and end in a zero. -/
theorem remove_crudL_idem (l : List Char)
    (h : ¬('.' ∈ remove_crudL l ∧ (remove_crudL l).getLast? = some '0')) :
    remove_crudL (remove_crudL l) = remove_crudL l := by
  have hstep :
      remove_crudL (remove_crudL l) =
        pyRstripL [' ', '.']
          (pyLstripL ['0', ' ']
            (if '.' ∈ remove_crudL l then pyRstripL ['0'] (remove_crudL l)
             else remove_crudL l)) := rfl
  rw [hstep]
  have h1 :
      (if '.' ∈ remove_crudL l then pyRstripL ['0'] (remove_crudL l)
       else remove_crudL l) = remove_crudL l := by
    by_cases hdot : '.' ∈ remove_crudL l
    · rw [if_pos hdot]
      refine pyRstripL_eq_self _ _ (fun c hc hmem => ?_)
      simp only [List.mem_singleton] at hmem
      subst hmem
      exact h ⟨hdot, hc⟩
    · rw [if_neg hdot]
  rw [h1]
  have h2 : pyLstripL ['0', ' '] (remove_crudL l) = remove_crudL l := by
    refine pyLstripL_eq_self _ _ (fun c hc hmem => ?_)
    have hne := remove_crudL_head l c hc
    simp only [List.mem_cons, List.not_mem_nil, or_false] at hmem
    rcases hmem with rfl | rfl
    · exact hne.1 rfl
    · exact hne.2 rfl
  rw [h2]
  refine pyRstripL_eq_self _ _ (fun c hc hmem => ?_)
  have hne := remove_crudL_getLast l c hc
  simp only [List.mem_cons, List.not_mem_nil, or_false] at hmem
  rcases hmem with rfl | rfl
  · exact hne.1 rfl
  · exact hne.2 rfl

/-- Crud removal only deletes characters at the two ends: the output is a
contiguous slice of the input, the dropped leading run holds only zeros
and spaces, the dropped trailing run only zeros, spaces and dots. -/
theorem remove_crudL_decomp (l : List Char) :
    ∃ pre post, l = pre ++ remove_crudL l ++ post ∧
      (∀ c ∈ pre, c = '0' ∨ c = ' ') ∧
      (∀ c ∈ post, c = '0' ∨ c = ' ' ∨ c = '.') := by
  have hstep :
      remove_crudL l =
        pyRstripL [' ', '.']
          (pyLstripL ['0', ' '] (if '.' ∈ l then pyRstripL ['0'] l else l)) := rfl
  obtain ⟨t1, ht1, hm1⟩ :
      ∃ t1, l = (if '.' ∈ l then pyRstripL ['0'] l else l) ++ t1 ∧
        ∀ c ∈ t1, c = '0' := by
    by_cases hdot : '.' ∈ l
    · obtain ⟨t, ht, hm⟩ := pyRstripL_decomp ['0'] l
      refine ⟨t, by rw [if_pos hdot]; exact ht, fun c hc => by simpa using hm c hc⟩
    · exact ⟨[], by rw [if_neg hdot]; simp, by simp⟩
  obtain ⟨t2, ht2, hm2⟩ := pyLstripL_decomp ['0', ' ']
    (if '.' ∈ l then pyRstripL ['0'] l else l)
  obtain ⟨t3, ht3, hm3⟩ := pyRstripL_decomp [' ', '.']
    (pyLstripL ['0', ' '] (if '.' ∈ l then pyRstripL ['0'] l else l))
  refine ⟨t2, t3 ++ t1, ?_, ?_, ?_⟩
  · rw [hstep]
    calc l = (if '.' ∈ l then pyRstripL ['0'] l else l) ++ t1 := ht1
    _ = (t2 ++ pyLstripL ['0', ' '] (if '.' ∈ l then pyRstripL ['0'] l else l)) ++ t1 := by
        rw [← ht2]
    _ = (t2 ++ (pyRstripL [' ', '.']
          (pyLstripL ['0', ' '] (if '.' ∈ l then pyRstripL ['0'] l else l)) ++ t3)) ++ t1 := by
        rw [← ht3]
    _ = _ := by simp [List.append_assoc]
  · intro c hc
    have := hm2 c hc
    simpa using this
  · intro c hc
    rw [List.mem_append] at hc
    rcases hc with hc | hc
    · have := hm3 c hc
      simp only [List.mem_cons, List.mem_singleton] at this
      tauto
    · exact Or.inl (hm1 c hc)

/-!
Frame-log lemmas: which frames an operation can write.
-/

/-- c to c2 only appends frames drawn from the allowed list. -/
def WritesOnly (allowed : List String) (c c2 : Chan) : Prop :=
  ∃ t, c2.written = c.written ++ t ∧ ∀ f ∈ t, f ∈ allowed

theorem writesOnly_refl (allowed : List String) (c : Chan) :
    WritesOnly allowed c c :=
  ⟨[], by simp, by simp⟩

theorem writesOnly_trans {allowed : List String} {c c1 c2 : Chan}
    (h1 : WritesOnly allowed c c1) (h2 : WritesOnly allowed c1 c2) :
    WritesOnly allowed c c2 := by
  obtain ⟨t1, ht1, hm1⟩ := h1
  obtain ⟨t2, ht2, hm2⟩ := h2
  refine ⟨t1 ++ t2, by rw [ht2, ht1, List.append_assoc], fun f hf => ?_⟩
  rw [List.mem_append] at hf
  rcases hf with hf | hf
  · exact hm1 f hf
  · exact hm2 f hf

theorem writesOnly_mono {a1 a2 : List String} {c c2 : Chan}
    (hsub : ∀ f ∈ a1, f ∈ a2) (h : WritesOnly a1 c c2) :
    WritesOnly a2 c c2 := by
  obtain ⟨t, ht, hm⟩ := h
  exact ⟨t, ht, fun f hf => hsub f (hm f hf)⟩

/-- A command round trip appends exactly its frame to the log. -/
theorem p33_cmd_written (addr cmd : String) (n : Nat) (c : Chan) :
    (p33_cmd addr cmd n c).2.written = c.written ++ [addr ++ cmd ++ "\r"] := by
  unfold p33_cmd chanWrite chanRead
  cases hp : c.pending with
  | nil => simp [hp]
  | cons r rest => simp [hp]; split <;> rfl

theorem p33_cmd_writesOnly (allowed : List String) (addr cmd : String)
    (n : Nat) (c : Chan) (hf : addr ++ cmd ++ "\r" ∈ allowed) :
    WritesOnly allowed c (p33_cmd addr cmd n c).2 :=
  ⟨[addr ++ cmd ++ "\r"], p33_cmd_written addr cmd n c, by simpa using hf⟩

/-- Evaluation of a command round trip against a nonempty scripted
response. -/
theorem p33_cmd_cons (addr cmd : String) (n : Nat) (r : String)
    (rest : List String) (w : List String) (b : Bool) (hr : r ≠ "") :
    p33_cmd addr cmd n ⟨r :: rest, w, b⟩ =
      (some r, ⟨rest, w ++ [addr ++ cmd ++ "\r"], b⟩) := by
  simp [p33_cmd, chanWrite, chanRead, hr]

/-- Evaluation of a command round trip when the next scripted response is
empty: the frame is still written, the read raises. -/
theorem p33_cmd_cons_empty (addr cmd : String) (n : Nat)
    (rest : List String) (w : List String) (b : Bool) :
    p33_cmd addr cmd n ⟨"" :: rest, w, b⟩ =
      (none, ⟨rest, w ++ [addr ++ cmd ++ "\r"], b⟩) := by
  simp [p33_cmd, chanWrite, chanRead]

theorem pump_cmd_written (addr cmd : String) (n : Nat) (c : Chan) :
    (pump_cmd addr cmd n c).2.written = c.written ++ [addr ++ cmd ++ "\r"] := by
  unfold pump_cmd chanWrite chanRead
  cases hp : c.pending with
  | nil => simp [hp]
  | cons r rest => simp [hp]; split <;> rfl

theorem pump_cmd_cons (addr cmd : String) (n : Nat) (r : String)
    (rest : List String) (w : List String) (b : Bool) (hr : r ≠ "") :
    pump_cmd addr cmd n ⟨r :: rest, w, b⟩ =
      (some r, ⟨rest, w ++ [addr ++ cmd ++ "\r"], b⟩) := by
  simp [pump_cmd, chanWrite, chanRead, hr]

/-- The frames a syringe 2 direction operation may write: direction and
parallel queries and the two parallel toggles. Notably no MOD frame. -/
def dirParFrames (addr : String) : List String :=
  [addr ++ "DIR" ++ "\r", addr ++ "PAR" ++ "\r",
   addr ++ "PAR OFF" ++ "\r", addr ++ "PAR ON" ++ "\r"]

/-- get_direction_2 writes only DIR and PAR query frames. -/
theorem get_direction_2_writesOnly (addr : String) (c : Chan) :
    WritesOnly (dirParFrames addr) c (get_direction_2 addr c).2 := by
  unfold get_direction_2
  rcases h1 : p33_cmd addr "DIR" 15 c with ⟨o1, c1⟩
  have w1 : WritesOnly (dirParFrames addr) c c1 := by
    have := p33_cmd_writesOnly (dirParFrames addr)
      addr "DIR" 15 c (by simp [dirParFrames])
    rwa [h1] at this
  cases o1 with
  | none => exact w1
  | some r1 =>
    dsimp only
    rcases h2 : p33_cmd addr "PAR" 15 c1 with ⟨o2, c2⟩
    have w2 : WritesOnly (dirParFrames addr) c1 c2 := by
      have := p33_cmd_writesOnly (dirParFrames addr)
        addr "PAR" 15 c1 (by simp [dirParFrames])
      rwa [h2] at this
    cases o2 with
    | none => exact writesOnly_trans w1 w2
    | some r2 =>
      dsimp only
      split
      · exact writesOnly_trans w1 w2
      · exact writesOnly_trans w1 w2

/-- Pump33.par writes only PAR queries and PAR ON / PAR OFF toggles. -/
theorem par_writesOnly (addr : String) (c : Chan) :
    WritesOnly (dirParFrames addr) c (Pump33.par addr c).2 := by
  unfold Pump33.par
  rcases h1 : p33_cmd addr "PAR" 15 c with ⟨o1, c1⟩
  have w1 : WritesOnly (dirParFrames addr) c c1 := by
    have := p33_cmd_writesOnly (dirParFrames addr) addr "PAR" 15 c
      (by simp [dirParFrames])
    rwa [h1] at this
  cases o1 with
  | none => exact w1
  | some r1 =>
    dsimp only
    split
    · rcases h2 : p33_cmd addr "PAR OFF" 5 c1 with ⟨o2, c2⟩
      have w2 : WritesOnly (dirParFrames addr) c1 c2 := by
        have := p33_cmd_writesOnly (dirParFrames addr) addr "PAR OFF" 5 c1
          (by simp [dirParFrames])
        rwa [h2] at this
      cases o2 with
      | none => exact writesOnly_trans w1 w2
      | some r2 =>
        dsimp only
        split
        · rcases h3 : p33_cmd addr "PAR" 15 c2 with ⟨o3, c3⟩
          have w3 : WritesOnly (dirParFrames addr) c2 c3 := by
            have := p33_cmd_writesOnly (dirParFrames addr) addr "PAR" 15 c2
              (by simp [dirParFrames])
            rwa [h3] at this
          cases o3 with
          | none => exact writesOnly_trans (writesOnly_trans w1 w2) w3
          | some r3 => exact writesOnly_trans (writesOnly_trans w1 w2) w3
        · exact writesOnly_trans w1 w2
    · split
      · rcases h2 : p33_cmd addr "PAR ON" 5 c1 with ⟨o2, c2⟩
        have w2 : WritesOnly (dirParFrames addr) c1 c2 := by
          have := p33_cmd_writesOnly (dirParFrames addr) addr "PAR ON" 5 c1
            (by simp [dirParFrames])
          rwa [h2] at this
        cases o2 with
        | none => exact writesOnly_trans w1 w2
        | some r2 =>
          dsimp only
          split
          · rcases h3 : p33_cmd addr "PAR" 15 c2 with ⟨o3, c3⟩
            have w3 : WritesOnly (dirParFrames addr) c2 c3 := by
              have := p33_cmd_writesOnly (dirParFrames addr) addr "PAR" 15 c2
                (by simp [dirParFrames])
              rwa [h3] at this
            cases o3 with
            | none => exact writesOnly_trans (writesOnly_trans w1 w2) w3
            | some r3 => exact writesOnly_trans (writesOnly_trans w1 w2) w3
          · exact writesOnly_trans w1 w2
      · exact w1

/-- Pump33.setdirection2 writes only DIR and PAR frames: it performs no
mode query and no direct direction command. -/
theorem setdirection2_writesOnly (addr direction : String) (st : P33State)
    (c : Chan) :
    WritesOnly (dirParFrames addr) c
      (Pump33.setdirection2 addr direction st c).2.2 := by
  unfold Pump33.setdirection2
  split
  · exact writesOnly_refl _ _
  · rcases hg : get_direction_2 addr c with ⟨rg, c1⟩
    have w1 : WritesOnly (dirParFrames addr) c c1 := by
      have := get_direction_2_writesOnly addr c
      rwa [hg] at this
    cases rg with
    | ok start2 =>
      dsimp only
      rcases ht : (if direction ≠ start2 then Pump33.par addr c1
        else (Res.ok (), c1)) with ⟨rt, c2⟩
      have w2 : WritesOnly (dirParFrames addr) c1 c2 := by
        by_cases hd : direction ≠ start2
        · rw [if_pos hd] at ht
          have := par_writesOnly addr c1
          rwa [ht] at this
        · rw [if_neg hd] at ht
          cases ht
          exact writesOnly_refl _ _
      cases rt with
      | ok u =>
        dsimp only
        rcases h3 : p33_cmd addr "PAR" 15 c2 with ⟨o3, c3⟩
        have w3 : WritesOnly (dirParFrames addr) c2 c3 := by
          have := p33_cmd_writesOnly (dirParFrames addr) addr "PAR" 15 c2
            (by simp [dirParFrames])
          rwa [h3] at this
        cases o3 with
        | none => exact writesOnly_trans (writesOnly_trans w1 w2) w3
        | some resp =>
          dsimp only
          split
          · rcases hg2 : get_direction_2 addr c3 with ⟨rg2, c4⟩
            have w4 : WritesOnly (dirParFrames addr) c3 c4 := by
              have := get_direction_2_writesOnly addr c3
              rwa [hg2] at this
            cases rg2 with
            | ok d2 =>
              dsimp only
              split
              all_goals split
              all_goals exact writesOnly_trans (writesOnly_trans (writesOnly_trans w1 w2) w3) w4
            | pumpError => exact writesOnly_trans (writesOnly_trans (writesOnly_trans w1 w2) w3) w4
            | valueError => exact writesOnly_trans (writesOnly_trans (writesOnly_trans w1 w2) w3) w4
            | indexError => exact writesOnly_trans (writesOnly_trans (writesOnly_trans w1 w2) w3) w4
          · exact writesOnly_trans (writesOnly_trans w1 w2) w3
      | pumpError => exact writesOnly_trans w1 w2
      | valueError => exact writesOnly_trans w1 w2
      | indexError => exact writesOnly_trans w1 w2
    | pumpError => exact w1
    | valueError => exact w1
    | indexError => exact w1

/-- Pure written-log extension: an operation only appends to the log. -/
def ChanExt (c c2 : Chan) : Prop := ∃ t, c2.written = c.written ++ t

theorem chanExt_refl (c : Chan) : ChanExt c c := ⟨[], by simp⟩

theorem chanExt_trans {c c1 c2 : Chan} (h1 : ChanExt c c1)
    (h2 : ChanExt c1 c2) : ChanExt c c2 := by
  obtain ⟨t1, ht1⟩ := h1
  obtain ⟨t2, ht2⟩ := h2
  exact ⟨t1 ++ t2, by rw [ht2, ht1, List.append_assoc]⟩

theorem writesOnly_chanExt {allowed : List String} {c c2 : Chan}
    (h : WritesOnly allowed c c2) : ChanExt c c2 := by
  obtain ⟨t, ht, _⟩ := h
  exact ⟨t, ht⟩

theorem p33_cmd_ext (addr cmd : String) (n : Nat) (c : Chan) :
    ChanExt c (p33_cmd addr cmd n c).2 :=
  ⟨[addr ++ cmd ++ "\r"], p33_cmd_written addr cmd n c⟩

/-- The verification tail of setdirection1 only appends to the log. -/
theorem setdirection1Check_ext (addr direction resp : String)
    (st : P33State) (c : Chan) :
    ChanExt c (Pump33.setdirection1Check addr direction resp st c).2.2 := by
  unfold Pump33.setdirection1Check
  split
  · rcases h1 : p33_cmd addr "DIR" 15 c with ⟨o1, c1⟩
    have e1 : ChanExt c c1 := by
      have := p33_cmd_ext addr "DIR" 15 c
      rwa [h1] at this
    cases o1 with
    | none => exact e1
    | some r3 =>
      dsimp only
      split
      all_goals split
      all_goals exact e1
  · exact chanExt_refl c

/-- Pump33.par always begins by writing the PAR query frame, whatever
else follows. -/
theorem par_written_head (addr : String) (c : Chan) :
    ∃ t, (Pump33.par addr c).2.written =
      c.written ++ [addr ++ "PAR" ++ "\r"] ++ t := by
  unfold Pump33.par
  rcases h1 : p33_cmd addr "PAR" 15 c with ⟨o1, c1⟩
  have e1 : c1.written = c.written ++ [addr ++ "PAR" ++ "\r"] := by
    have := p33_cmd_written addr "PAR" 15 c
    rwa [h1] at this
  have tail : ∀ c2 : Chan, ChanExt c1 c2 →
      ∃ t, c2.written = c.written ++ [addr ++ "PAR" ++ "\r"] ++ t := by
    intro c2 h
    obtain ⟨t, ht⟩ := h
    exact ⟨t, by rw [ht, e1]⟩
  cases o1 with
  | none => exact tail c1 (chanExt_refl c1)
  | some r1 =>
    dsimp only
    split
    · rcases h2 : p33_cmd addr "PAR OFF" 5 c1 with ⟨o2, c2⟩
      have e2 : ChanExt c1 c2 := by
        have := p33_cmd_ext addr "PAR OFF" 5 c1
        rwa [h2] at this
      cases o2 with
      | none => exact tail c2 e2
      | some r2 =>
        dsimp only
        split
        · rcases h3 : p33_cmd addr "PAR" 15 c2 with ⟨o3, c3⟩
          have e3 : ChanExt c2 c3 := by
            have := p33_cmd_ext addr "PAR" 15 c2
            rwa [h3] at this
          cases o3 with
          | none => exact tail c3 (chanExt_trans e2 e3)
          | some r3 => exact tail c3 (chanExt_trans e2 e3)
        · exact tail c2 e2
    · split
      · rcases h2 : p33_cmd addr "PAR ON" 5 c1 with ⟨o2, c2⟩
        have e2 : ChanExt c1 c2 := by
          have := p33_cmd_ext addr "PAR ON" 5 c1
          rwa [h2] at this
        cases o2 with
        | none => exact tail c2 e2
        | some r2 =>
          dsimp only
          split
          · rcases h3 : p33_cmd addr "PAR" 15 c2 with ⟨o3, c3⟩
            have e3 : ChanExt c2 c3 := by
              have := p33_cmd_ext addr "PAR" 15 c2
              rwa [h3] at this
            cases o3 with
            | none => exact tail c3 (chanExt_trans e2 e3)
            | some r3 => exact tail c3 (chanExt_trans e2 e3)
          · exact tail c2 e2
      · exact tail c1 (chanExt_refl c1)

/-!
Auxiliary facts used by the claim theorems.
-/

/-- A [1:7] slice is at most six characters long. -/
theorem pySlice_1_7_len (s : String) : (pySlice s 1 7).data.length ≤ 6 := by
  have hb : sliceBound s.data.length 7 = min 7 s.data.length := by
    unfold sliceBound
    norm_num
    rfl
  have ha : sliceBound s.data.length 1 = min 1 s.data.length := by
    unfold sliceBound
    norm_num
  show ((s.data.take (sliceBound s.data.length 7)).drop
    (sliceBound s.data.length 1)).length ≤ 6
  rw [List.length_drop, List.length_take, hb, ha]
  omega

/-- The six-character DIR reading can never equal the seven-character
word REVERSE. -/
theorem slice17_ne_REVERSE (s : String) : pySlice s 1 7 ≠ "REVERSE" := by
  intro h
  have hlen := pySlice_1_7_len s
  rw [h] at hlen
  exact absurd hlen (by decide)

/-- The complementary direction always differs from its argument. -/
theorem get_other_direction_ne (d : String) : get_other_direction d ≠ d := by
  unfold get_other_direction
  split
  · rename_i h
    rw [h]
    decide
  · rename_i h
    exact fun hh => h hh.symm

/-!
Claim theorems.
-/

/-- C1: for every pair of register readings obtained by get_direction_2
(direction1 from the DIR reply, parallel from the PAR reply), the derived
direction2 equals direction1 exactly when parallel is ON, and equals the
complement computed by get_other_direction when parallel is OFF; the
value is computed from the two reads alone (get_direction_2 takes no
stored pump state). -/
theorem claim_C1_direction2_derived (addr r1 r2 : String)
    (rest w : List String) (b : Bool) (hr1 : r1 ≠ "") (hr2 : r2 ≠ "") :
    ∃ d2 c2, get_direction_2 addr ⟨r1 :: r2 :: rest, w, b⟩ = (.ok d2, c2) ∧
      (d2 = pySlice r1 1 7 ↔ pySlice r2 1 (-4) = "ON") ∧
      (pySlice r2 1 (-4) = "OFF" →
        d2 = get_other_direction (pySlice r1 1 7)) ∧
      (pySlice r2 1 (-4) = "ON" → d2 = pySlice r1 1 7) := by
  unfold get_direction_2
  rw [p33_cmd_cons addr "DIR" 15 r1 (r2 :: rest) w b hr1]
  dsimp only
  rw [p33_cmd_cons addr "PAR" 15 r2 rest (w ++ [addr ++ "DIR" ++ "\r"]) b hr2]
  dsimp only
  by_cases hp : pySlice r2 1 (-4) = "ON"
  · rw [if_pos hp]
    refine ⟨_, _, rfl, by simp [hp], fun hoff => ?_, fun _ => rfl⟩
    rw [hp] at hoff
    exact absurd hoff (by decide)
  · rw [if_neg hp]
    exact ⟨_, _, rfl,
      by simp [hp, get_other_direction_ne (pySlice r1 1 7)],
      fun _ => rfl, fun hon => absurd hon hp⟩

/-- Witness for C1 at a concrete reciprocal reading. -/
theorem claim_C1_witness :
    ∃ d2 c2, get_direction_2 "00"
        ⟨["\nINFUSE\n00:", "\nOFF\n00:"], [], false⟩ = (.ok d2, c2) ∧
      (d2 = pySlice "\nINFUSE\n00:" 1 7 ↔ pySlice "\nOFF\n00:" 1 (-4) = "ON") ∧
      (pySlice "\nOFF\n00:" 1 (-4) = "OFF" →
        d2 = get_other_direction (pySlice "\nINFUSE\n00:" 1 7)) ∧
      (pySlice "\nOFF\n00:" 1 (-4) = "ON" → d2 = pySlice "\nINFUSE\n00:" 1 7) :=
  claim_C1_direction2_derived "00" "\nINFUSE\n00:" "\nOFF\n00:" [] [] false
    (by decide) (by decide)

/-- C7 fails as stated: remove_crud is not idempotent on the input
"1.0.0", whose first pass yields "1.0" and second pass "1". -/
theorem claim_C7_counterexample :
    remove_crud (remove_crud "1.0.0") ≠ remove_crud "1.0.0" := by decide

/-- C7 amended: remove_crud is idempotent on every string whose cleaned
form does not both contain a decimal point and end in a zero (the failing
inputs are exactly those where a trailing space or dot shields zeros from
the first strip, as in "1.0.0" or "1.0 "). -/
theorem claim_C7_idem (s : String)
    (h : ¬('.' ∈ (remove_crud s).data ∧
      (remove_crud s).data.getLast? = some '0')) :
    remove_crud (remove_crud s) = remove_crud s := by
  have hl := remove_crudL_idem s.data h
  exact congrArg String.mk hl

/-- Witness for C7 at the concrete vector "003.200". -/
theorem claim_C7_witness :
    ¬('.' ∈ (remove_crud "003.200").data ∧
      (remove_crud "003.200").data.getLast? = some '0') ∧
    remove_crud (remove_crud "003.200") = remove_crud "003.200" :=
  ⟨by decide, claim_C7_idem "003.200" (by decide)⟩

/-- C8 fails as stated on its first vector: the trailing space in
"0030.2000 " shields the fractional zeros from the zero-strip, which runs
before the space-strip, so the output is "30.2000", not "30.2". -/
theorem claim_C8_counterexample : remove_crud "0030.2000 " ≠ "30.2" := by
  decide

/-- C8 amended: remove_crud maps "0030.2000 " to "30.2000" (the trailing
space blocks zero removal), "5." to "5" and "003.200" to "3.2"; and for
every input it only removes characters at the two ends - the output is a
contiguous slice of the input, the dropped leading run holds only zeros
and spaces, the dropped trailing run only zeros, spaces and dots. -/
theorem claim_C8_vectors :
    remove_crud "0030.2000 " = "30.2000" ∧ remove_crud "5." = "5" ∧
    remove_crud "003.200" = "3.2" ∧
    ∀ s : String, ∃ pre post,
      s.data = pre ++ (remove_crud s).data ++ post ∧
      (∀ c ∈ pre, c = '0' ∨ c = ' ') ∧
      (∀ c ∈ post, c = '0' ∨ c = ' ' ∨ c = '.') :=
  ⟨by decide, by decide, by decide, fun s => remove_crudL_decomp s.data⟩

/-- C2 fails as stated: Pump33.setdirection2 never queries the mode
register. On a scripted channel whose pump is not in Proportional mode
(no MOD query is even possible to answer), setdirection2 returns normally
after five DIR/PAR round trips and no MOD frame is ever written, instead
of raising PumpError before its set frame. -/
theorem claim_C2_counterexample :
    Pump33.setdirection2 "00" "INFUSE" P33State.init
      ⟨["\nINFUSE\n00:", "\nON\n00:", "\nON\n00:", "\nINFUSE\n00:",
        "\nON\n00:"], [], false⟩ =
      (.ok (), { P33State.init with direction2 := some "INFUSE" },
        ⟨[], ["00DIR\r", "00PAR\r", "00PAR\r", "00DIR\r", "00PAR\r"], false⟩) ∧
    "00MOD\r" ∉
      (Pump33.setdirection2 "00" "INFUSE" P33State.init
        ⟨["\nINFUSE\n00:", "\nON\n00:", "\nON\n00:", "\nINFUSE\n00:",
          "\nON\n00:"], [], false⟩).2.2.written := by decide

/-- C2 amended: setdiameter2 and setflowrate2 do query the mode register
first and raise PumpError, with only the MOD query frame written, when
the reported mode is not PRO; setdirection2 however performs no mode
check: it writes only DIR and PAR frames (queries and parallel toggles),
never a MOD query, whatever the script. -/
theorem claim_C2_mode_gate :
    (∀ (addr : String) (d : Dec) (dstr : String) (st : P33State)
      (r : String) (rest w : List String) (b : Bool), r ≠ "" →
      pySlice r 1 (-4) ≠ "PRO" →
      Pump33.setdiameter2 addr d dstr st ⟨r :: rest, w, b⟩ =
        (.pumpError, st, ⟨rest, w ++ [addr ++ "MOD" ++ "\r"], b⟩)) ∧
    (∀ (addr fstr : String) (st : P33State) (r : String)
      (rest w : List String) (b : Bool), r ≠ "" →
      pySlice r 1 (-4) ≠ "PRO" →
      Pump33.setflowrate2 addr fstr st ⟨r :: rest, w, b⟩ =
        (.pumpError, st, ⟨rest, w ++ [addr ++ "MOD" ++ "\r"], b⟩)) ∧
    (∀ (addr direction : String) (st : P33State) (c : Chan),
      WritesOnly (dirParFrames addr) c
        (Pump33.setdirection2 addr direction st c).2.2) := by
  refine ⟨?_, ?_, fun addr direction st c => setdirection2_writesOnly addr direction st c⟩
  · intro addr d dstr st r rest w b hr hm
    unfold Pump33.setdiameter2
    rw [p33_cmd_cons addr "MOD" 15 r rest w b hr]
    dsimp only
    rw [if_pos hm]
  · intro addr fstr st r rest w b hr hm
    unfold Pump33.setflowrate2
    rw [p33_cmd_cons addr "MOD" 15 r rest w b hr]
    dsimp only
    rw [if_pos hm]

/-- Witness for C2 at concrete Auto Stop mode replies. -/
theorem claim_C2_witness :
    Pump33.setdiameter2 "00" ⟨5, 0⟩ "5" P33State.init
      ⟨["\nAUT\n00:"], [], false⟩ =
      (.pumpError, P33State.init, ⟨[], ["00" ++ "MOD" ++ "\r"], false⟩) ∧
    Pump33.setflowrate2 "00" "50" P33State.init
      ⟨["\nAUT\n00:"], [], false⟩ =
      (.pumpError, P33State.init, ⟨[], ["00" ++ "MOD" ++ "\r"], false⟩) :=
  ⟨claim_C2_mode_gate.1 "00" ⟨5, 0⟩ "5" P33State.init "\nAUT\n00:" [] [] false
      (by decide) (by decide),
   claim_C2_mode_gate.2.1 "00" "50" P33State.init "\nAUT\n00:" [] [] false
      (by decide) (by decide)⟩

/-- C3 fails as stated: calling setdirection1 with REVERSE on a scripted
channel issues DIR REV and then the compensating parallel toggle - the
frame PAR OFF is written - because the six-character DIR reading can
never equal REVERSE, so the reverse branch with its par() call is always
taken. -/
theorem claim_C3_counterexample :
    (Pump33.setdirection1 "00" "REVERSE" P33State.init
      ⟨["\nINFUSE\n00:", "\n00>", "\nON\n00:", "\n00>", "\nOFF\n00:",
        "\nINFUSE\n00:"], [], false⟩).1 = .ok () ∧
    "00PAR OFF\r" ∈
      (Pump33.setdirection1 "00" "REVERSE" P33State.init
        ⟨["\nINFUSE\n00:", "\n00>", "\nON\n00:", "\n00>", "\nOFF\n00:",
          "\nINFUSE\n00:"], [], false⟩).2.2.written := by decide

/-- C3 amended: on every script, setdirection1 called with REVERSE reads
DIR, then always issues DIR REV followed by the par() toggle (whose PAR
query is the third frame written), because the six-character direction
reading never equals the seven-character REVERSE; there is no
toggle-free reverse path. -/
theorem claim_C3_reverse_toggles (addr : String) (st : P33State)
    (r1 r2 : String) (rest w : List String) (b : Bool)
    (hr1 : r1 ≠ "") (hr2 : r2 ≠ "") :
    pySlice r1 1 7 ≠ "REVERSE" ∧
    ∃ t, (Pump33.setdirection1 addr "REVERSE" st
        ⟨r1 :: r2 :: rest, w, b⟩).2.2.written =
      w ++ [addr ++ "DIR" ++ "\r", addr ++ "DIR REV" ++ "\r",
        addr ++ "PAR" ++ "\r"] ++ t := by
  refine ⟨slice17_ne_REVERSE r1, ?_⟩
  unfold Pump33.setdirection1
  rw [if_neg (by decide : ¬("REVERSE" ∉ ["INFUSE", "REFILL", "REVERSE"]))]
  rw [p33_cmd_cons addr "DIR" 15 r1 (r2 :: rest) w b hr1]
  dsimp only
  rw [if_pos (slice17_ne_REVERSE r1)]
  rw [p33_cmd_cons addr "DIR REV" 5 r2 rest (w ++ [addr ++ "DIR" ++ "\r"]) b hr2]
  dsimp only
  obtain ⟨t, ht⟩ := par_written_head addr
    ⟨rest, w ++ [addr ++ "DIR" ++ "\r"] ++ [addr ++ "DIR REV" ++ "\r"], b⟩
  rcases hp : Pump33.par addr
    ⟨rest, w ++ [addr ++ "DIR" ++ "\r"] ++ [addr ++ "DIR REV" ++ "\r"], b⟩
    with ⟨rp, c3⟩
  rw [hp] at ht
  cases rp with
  | ok u =>
    dsimp only
    obtain ⟨t2, ht2⟩ := setdirection1Check_ext addr "REVERSE" r2 st c3
    refine ⟨t ++ t2, ?_⟩
    rw [ht2, ht]
    simp
  | pumpError =>
    exact ⟨t, by rw [ht]; simp⟩
  | valueError =>
    exact ⟨t, by rw [ht]; simp⟩
  | indexError =>
    exact ⟨t, by rw [ht]; simp⟩

/-- Witness for C3 on the concrete script of the counterexample. -/
theorem claim_C3_witness :
    pySlice "\nINFUSE\n00:" 1 7 ≠ "REVERSE" ∧
    ∃ t, (Pump33.setdirection1 "00" "REVERSE" P33State.init
        ⟨["\nINFUSE\n00:", "\n00>", "\nON\n00:", "\n00>", "\nOFF\n00:",
          "\nINFUSE\n00:"], [], false⟩).2.2.written =
      [] ++ ["00" ++ "DIR" ++ "\r", "00" ++ "DIR REV" ++ "\r",
        "00" ++ "PAR" ++ "\r"] ++ t :=
  claim_C3_reverse_toggles "00" P33State.init "\nINFUSE\n00:" "\n00>"
    ["\nON\n00:", "\n00>", "\nOFF\n00:", "\nINFUSE\n00:"] [] false
    (by decide) (by decide)

/-- C9: a diameter outside [0.1, 35] makes Pump.setdiameter raise
PumpError with the channel untouched (no frame written), and a diameter
outside [0.1, 50] does the same for Pump33.setdiameter1; the boundary
values 0.1 and the family maximum are accepted - the concrete boundary
runs send their DIA frame, verify and cache the value. -/
theorem claim_C9_range_gate :
    (∀ (addr : String) (d : Dec) (dstr : String) (st : PumpState) (c : Chan),
      Dec.ltb (Dec.ofInt 35) d ∨ Dec.ltb d ⟨1, 1⟩ →
      Pump.setdiameter addr d dstr st c = (.pumpError, st, c)) ∧
    (∀ (addr : String) (d : Dec) (dstr : String) (st : P33State) (c : Chan),
      Dec.ltb (Dec.ofInt 50) d ∨ Dec.ltb d ⟨1, 1⟩ →
      Pump33.setdiameter1 addr d dstr st c = (.pumpError, st, c)) ∧
    Pump.setdiameter "00" ⟨1, 1⟩ "0.1" PumpState.init
      ⟨["\n00:", "ABC0.1000Z"], [], false⟩ =
      (.ok (), ⟨some ⟨1, 1⟩, none, none⟩,
        ⟨[], ["00MMD.1\r", "00DIA\r"], false⟩) ∧
    Pump.setdiameter "00" ⟨35, 0⟩ "35.0" PumpState.init
      ⟨["\n00:", "ABC35.000Z"], [], false⟩ =
      (.ok (), ⟨some ⟨35, 0⟩, none, none⟩,
        ⟨[], ["00MMD35\r", "00DIA\r"], false⟩) ∧
    Pump33.setdiameter1 "00" ⟨1, 1⟩ "0.1" P33State.init
      ⟨["\n00:", "\n0.100\n00:"], [], false⟩ =
      (.ok (), { P33State.init with diameter1 := some ⟨100, 3⟩ },
        ⟨[], ["00DIA A.1\r", "00DIA A\r"], false⟩) ∧
    Pump33.setdiameter1 "00" ⟨50, 0⟩ "50.0" P33State.init
      ⟨["\n00:", "\n50.00\n00:"], [], false⟩ =
      (.ok (), { P33State.init with diameter1 := some ⟨5000, 2⟩ },
        ⟨[], ["00DIA A50\r", "00DIA A\r"], false⟩) := by
  refine ⟨?_, ?_, by decide, by decide, by decide, by decide⟩
  · intro addr d dstr st c h
    unfold Pump.setdiameter
    rw [if_pos h]
  · intro addr d dstr st c h
    unfold Pump33.setdiameter1
    rw [if_pos h]

/-- Witness for C9 at the concrete out-of-range diameters 36 (above the
Pump 11 maximum), 0.05 (below the shared minimum) and 51 (above the
Pump 33 maximum). -/
theorem claim_C9_witness :
    Pump.setdiameter "00" ⟨36, 0⟩ "36" PumpState.init ⟨[], [], false⟩ =
      (.pumpError, PumpState.init, ⟨[], [], false⟩) ∧
    Pump.setdiameter "00" ⟨5, 2⟩ "0.05" PumpState.init ⟨[], [], false⟩ =
      (.pumpError, PumpState.init, ⟨[], [], false⟩) ∧
    Pump33.setdiameter1 "00" ⟨51, 0⟩ "51" P33State.init ⟨[], [], false⟩ =
      (.pumpError, P33State.init, ⟨[], [], false⟩) :=
  ⟨claim_C9_range_gate.1 "00" ⟨36, 0⟩ "36" PumpState.init ⟨[], [], false⟩
      (by decide),
   claim_C9_range_gate.1 "00" ⟨5, 2⟩ "0.05" PumpState.init ⟨[], [], false⟩
      (by decide),
   claim_C9_range_gate.2.1 "00" ⟨51, 0⟩ "51" P33State.init ⟨[], [], false⟩
      (by decide)⟩

/-- C5 fails as stated: MightyMini.infuse returns normally on the
nonempty unrecognized response XX instead of raising, and
PHD2000.settargetvolume returns normally (cache untouched) on a response
whose trailer is not a status character. -/
theorem claim_C5_counterexample :
    MightyMini.infuse ⟨["XX"], [], false⟩ = (.ok (), ⟨[], ["RU"], false⟩) ∧
    PHD2000.settargetvolume "00" "5.0" PumpState.init
      ⟨["\n00?"], [], false⟩ =
      (.ok (), PumpState.init, ⟨[], ["00MLT5.0\r"], false⟩) := by decide

/-- C5 amended: Pump.settargetvolume does raise PumpError on a nonempty
response with an unrecognized trailer, but PHD2000.settargetvolume
returns normally with the cached target volume untouched (its success
check has no else branch), and MightyMini.infuse and MightyMini.stop
return normally on any two-character-or-longer response that is not OK
(their OK test guards only a log line). -/
theorem claim_C5_unknown_status :
    (∀ (addr tvstr : String) (st : PumpState) (r : String)
      (rest w : List String) (b : Bool), r ≠ "" → trailerOk r = false →
      Pump.settargetvolume addr tvstr st ⟨r :: rest, w, b⟩ =
        (.pumpError, st, ⟨rest, w ++ [addr ++ ("MLT" ++ tvstr) ++ "\r"], b⟩)) ∧
    (∀ (addr tvMlStr : String) (st : PumpState) (r : String)
      (rest w : List String) (b : Bool), r ≠ "" → trailerOk r = false →
      (PHD2000.settargetvolume addr tvMlStr st ⟨r :: rest, w, b⟩).1 = .ok () ∧
      (PHD2000.settargetvolume addr tvMlStr st ⟨r :: rest, w, b⟩).2.1 = st) ∧
    (∀ (r : String) (rest w : List String) (b : Bool)
      (c1 c2 : Char) (tl : List Char), r.data = c1 :: c2 :: tl →
      ¬(c1 = 'O' ∧ c2 = 'K') →
      MightyMini.infuse ⟨r :: rest, w, b⟩ =
        (.ok (), ⟨rest, w ++ ["RU"], b⟩)) ∧
    (∀ (r : String) (rest w : List String) (b : Bool)
      (c1 c2 : Char) (tl : List Char), r.data = c1 :: c2 :: tl →
      ¬(c1 = 'O' ∧ c2 = 'K') →
      MightyMini.stop ⟨r :: rest, w, b⟩ =
        (.ok (), ⟨rest, w ++ ["ST"], b⟩)) := by
  refine ⟨?_, ?_, ?_, ?_⟩
  · intro addr tvstr st r rest w b hr ht
    unfold Pump.settargetvolume
    rw [pump_cmd_cons addr ("MLT" ++ tvstr) 5 r rest w b hr]
    dsimp only
    rw [if_neg (by simp [ht])]
  · intro addr tvMlStr st r rest w b hr ht
    unfold PHD2000.settargetvolume
    dsimp only
    rw [pump_cmd_cons addr
      ("MLT" ++ (if tvMlStr.data.length > 5 then pySlice tvMlStr 0 5
        else tvMlStr)) 5 r rest w b hr]
    dsimp only
    rw [if_neg (by simp [ht])]
    exact ⟨rfl, rfl⟩
  · intro r rest w b c1 c2 tl hdata hOK
    have hrne : r ≠ "" := by
      intro h
      rw [h] at hdata
      simp at hdata
    have h0 : pyGet r 0 = some c1 := by simp [pyGet, pyGetL, hdata]
    have h1 : pyGet r 1 = some c2 := by simp [pyGet, pyGetL, hdata]
    unfold MightyMini.infuse
    simp only [chanWrite, chanRead]
    rw [if_neg hrne, h0]
    dsimp only
    by_cases hc1 : c1 = 'O'
    · rw [if_pos hc1, h1]
      dsimp only
      split <;> rfl
    · rw [if_neg hc1]
  · intro r rest w b c1 c2 tl hdata hOK
    have hrne : r ≠ "" := by
      intro h
      rw [h] at hdata
      simp at hdata
    have h0 : pyGet r 0 = some c1 := by simp [pyGet, pyGetL, hdata]
    have h1 : pyGet r 1 = some c2 := by simp [pyGet, pyGetL, hdata]
    unfold MightyMini.stop
    simp only [chanWrite, chanRead]
    rw [if_neg hrne, h0]
    dsimp only
    by_cases hc1 : c1 = 'O'
    · rw [if_pos hc1, h1]
      dsimp only
      split <;> rfl
    · rw [if_neg hc1]

/-- Witness for C5 at concrete unrecognized responses. -/
theorem claim_C5_witness :
    Pump.settargetvolume "00" "100" PumpState.init ⟨["\n00?"], [], false⟩ =
      (.pumpError, PumpState.init,
        ⟨[], ["00" ++ ("MLT" ++ "100") ++ "\r"], false⟩) ∧
    MightyMini.stop ⟨["NO"], [], false⟩ = (.ok (), ⟨[], ["ST"], false⟩) :=
  ⟨claim_C5_unknown_status.1 "00" "100" PumpState.init "\n00?" [] [] false
      (by decide) (by decide),
   claim_C5_unknown_status.2.2.2 "NO" [] [] false 'N' 'O' [] (by decide)
      (by decide)⟩

theorem pump_cmd_cons_empty (addr cmd : String) (n : Nat)
    (rest : List String) (w : List String) (b : Bool) :
    pump_cmd addr cmd n ⟨"" :: rest, w, b⟩ =
      (none, ⟨rest, w ++ [addr ++ cmd ++ "\r"], b⟩) := by
  simp [pump_cmd, chanWrite, chanRead]

theorem pump_cmd_nil (addr cmd : String) (n : Nat) (w : List String)
    (b : Bool) :
    pump_cmd addr cmd n ⟨[], w, b⟩ =
      (none, ⟨[], w ++ [addr ++ cmd ++ "\r"], b⟩) := by
  simp [pump_cmd, chanWrite, chanRead]

theorem p33_cmd_nil (addr cmd : String) (n : Nat) (w : List String)
    (b : Bool) :
    p33_cmd addr cmd n ⟨[], w, b⟩ =
      (none, ⟨[], w ++ [addr ++ cmd ++ "\r"], b⟩) := by
  simp [p33_cmd, chanWrite, chanRead]

/-- C6 fails as stated: a probe reply whose embedded address field is not
numeric (here "boguss", giving int("us")) makes construction fail with
ValueError, which the except PumpError clause does not catch, so the
channel is left open (closed = false) while the error propagates. -/
theorem claim_C6_counterexample :
    Pump.init 0 ⟨["boguss"], [], false⟩ =
      (.valueError, ⟨[], ["00VER\r"], false⟩) := by decide

/-- C6 amended: when the probe read returns zero bytes, or when the
embedded address parses as an integer and differs from the configured
address, both constructors close the channel before the PumpError
propagates; but when the embedded address field fails to parse, the
ValueError escapes the except PumpError clause and the channel stays in
its prior open state. -/
theorem claim_C6_close_on_failure :
    (∀ (address : Nat) (rest w : List String) (b : Bool),
      Pump.init address ⟨"" :: rest, w, b⟩ =
        (.pumpError,
          ⟨rest, w ++ [addrString address ++ "VER" ++ "\r"], true⟩)) ∧
    (∀ (address : Nat) (w : List String) (b : Bool),
      Pump.init address ⟨[], w, b⟩ =
        (.pumpError, ⟨[], w ++ [addrString address ++ "VER" ++ "\r"], true⟩)) ∧
    (∀ (address : Nat) (r : String) (rest w : List String) (b : Bool)
      (n : Int), r ≠ "" → pyInt (pySlice r (-3) (-1)) = some n →
      n ≠ (address : Int) →
      Pump.init address ⟨r :: rest, w, b⟩ =
        (.pumpError,
          ⟨rest, w ++ [addrString address ++ "VER" ++ "\r"], true⟩)) ∧
    (∀ (address : Nat) (r : String) (rest w : List String) (b : Bool),
      r ≠ "" → pyInt (pySlice r (-3) (-1)) = none →
      Pump.init address ⟨r :: rest, w, b⟩ =
        (.valueError,
          ⟨rest, w ++ [addrString address ++ "VER" ++ "\r"], b⟩)) ∧
    (∀ (address : Nat) (rest w : List String) (b : Bool),
      Pump33.init address ⟨"" :: rest, w, b⟩ =
        (.pumpError,
          ⟨rest, w ++ [addrString address ++ "VER" ++ "\r"], true⟩)) ∧
    (∀ (address : Nat) (w : List String) (b : Bool),
      Pump33.init address ⟨[], w, b⟩ =
        (.pumpError, ⟨[], w ++ [addrString address ++ "VER" ++ "\r"], true⟩)) ∧
    (∀ (address : Nat) (r : String) (rest w : List String) (b : Bool)
      (n : Int), r ≠ "" → pyInt (pySlice r (-3) (-1)) = some n →
      n ≠ (address : Int) →
      Pump33.init address ⟨r :: rest, w, b⟩ =
        (.pumpError,
          ⟨rest, w ++ [addrString address ++ "VER" ++ "\r"], true⟩)) ∧
    (∀ (address : Nat) (r : String) (rest w : List String) (b : Bool),
      r ≠ "" → pyInt (pySlice r (-3) (-1)) = none →
      Pump33.init address ⟨r :: rest, w, b⟩ =
        (.valueError,
          ⟨rest, w ++ [addrString address ++ "VER" ++ "\r"], b⟩)) := by
  refine ⟨?_, ?_, ?_, ?_, ?_, ?_, ?_, ?_⟩
  · intro address rest w b
    unfold Pump.init
    rw [pump_cmd_cons_empty]
    rfl
  · intro address w b
    unfold Pump.init
    rw [pump_cmd_nil]
    rfl
  · intro address r rest w b n hr hparse hne
    unfold Pump.init
    rw [pump_cmd_cons (addrString address) "VER" 17 r rest w b hr]
    dsimp only
    rw [hparse]
    dsimp only
    rw [if_pos hne]
    rfl
  · intro address r rest w b hr hparse
    unfold Pump.init
    rw [pump_cmd_cons (addrString address) "VER" 17 r rest w b hr]
    dsimp only
    rw [hparse]
  · intro address rest w b
    unfold Pump33.init
    rw [p33_cmd_cons_empty]
    rfl
  · intro address w b
    unfold Pump33.init
    rw [p33_cmd_nil]
    rfl
  · intro address r rest w b n hr hparse hne
    unfold Pump33.init
    rw [p33_cmd_cons (addrString address) "VER" 11 r rest w b hr]
    dsimp only
    rw [hparse]
    dsimp only
    rw [if_pos hne]
    rfl
  · intro address r rest w b hr hparse
    unfold Pump33.init
    rw [p33_cmd_cons (addrString address) "VER" 11 r rest w b hr]
    dsimp only
    rw [hparse]

/-- Witness for C6 at a concrete empty probe, a concrete mismatched
address reply and a concrete unparseable reply. -/
theorem claim_C6_witness :
    Pump.init 0 ⟨[""], [], false⟩ =
      (.pumpError, ⟨[], [addrString 0 ++ "VER" ++ "\r"], true⟩) ∧
    Pump.init 0 ⟨["xxxxx05:"], [], false⟩ =
      (.pumpError, ⟨[], [addrString 0 ++ "VER" ++ "\r"], true⟩) ∧
    Pump33.init 3 ⟨["boguss"], [], false⟩ =
      (.valueError, ⟨[], [addrString 3 ++ "VER" ++ "\r"], false⟩) :=
  ⟨claim_C6_close_on_failure.1 0 [] [] false,
   claim_C6_close_on_failure.2.2.1 0 "xxxxx05:" [] [] false 5 (by decide)
      (by decide) (by decide),
   claim_C6_close_on_failure.2.2.2.2.2.2.2 3 "boguss" [] [] false (by decide)
      (by decide)⟩

/-!
Verification-mismatch behavior of each set operation (for C4).
-/

theorem setdiameter_mismatch (addr : String) (d : Dec) (dstr : String)
    (st : PumpState) (r1 r2 : String) (rest w : List String) (b : Bool)
    (hrange : ¬(Dec.ltb (Dec.ofInt 35) d ∨ Dec.ltb d ⟨1, 1⟩))
    (hr1 : r1 ≠ "") (ht : trailerOk r1 = true) (hr2 : r2 ≠ "")
    (hmm : remove_crud (pySlice r2 3 9) ≠ Pump.truncDia dstr) :
    Pump.setdiameter addr d dstr st ⟨r1 :: r2 :: rest, w, b⟩ =
      (.ok (), st, ⟨rest,
        w ++ [addr ++ ("MMD" ++ Pump.truncDia dstr) ++ "\r"]
          ++ [addr ++ "DIA" ++ "\r"], b⟩) := by
  unfold Pump.setdiameter
  rw [if_neg hrange]
  dsimp only
  rw [pump_cmd_cons addr ("MMD" ++ Pump.truncDia dstr) 5 r1 (r2 :: rest) w b hr1]
  dsimp only
  rw [if_pos ht]
  rw [pump_cmd_cons addr "DIA" 15 r2 rest
    (w ++ [addr ++ ("MMD" ++ Pump.truncDia dstr) ++ "\r"]) b hr2]
  dsimp only
  rw [if_pos hmm]

theorem setflowrate_mismatch (addr fstr : String) (st : PumpState)
    (r1 r2 : String) (rest w : List String) (b : Bool)
    (hr1 : r1 ≠ "") (ht : trailerOk r1 = true) (hr2 : r2 ≠ "")
    (hmm : remove_crud (pySlice r2 2 8) ≠ truncCrud 5 fstr) :
    Pump.setflowrate addr fstr st ⟨r1 :: r2 :: rest, w, b⟩ =
      (.ok (), st, ⟨rest,
        w ++ [addr ++ ("ULM" ++ truncCrud 5 fstr) ++ "\r"]
          ++ [addr ++ "RAT" ++ "\r"], b⟩) := by
  unfold Pump.setflowrate
  dsimp only
  rw [pump_cmd_cons addr ("ULM" ++ truncCrud 5 fstr) 5 r1 (r2 :: rest) w b hr1]
  dsimp only
  rw [if_pos ht]
  rw [pump_cmd_cons addr "RAT" 150 r2 rest
    (w ++ [addr ++ ("ULM" ++ truncCrud 5 fstr) ++ "\r"]) b hr2]
  dsimp only
  rw [if_pos hmm]

theorem setdiameter1_mismatch (addr : String) (d : Dec) (dstr : String)
    (st : P33State) (r1 r2 : String) (rest w : List String) (b : Bool)
    (x y : Dec)
    (hrange : ¬(Dec.ltb (Dec.ofInt 50) d ∨ Dec.ltb d ⟨1, 1⟩))
    (hr1 : r1 ≠ "") (ht : trailerOk r1 = true) (hr2 : r2 ≠ "")
    (hx : pyFloat (pySlice r2 1 (-4)) = some x)
    (hy : pyFloat (truncCrud 6 dstr) = some y)
    (hne : ¬ Dec.eqb x y) :
    Pump33.setdiameter1 addr d dstr st ⟨r1 :: r2 :: rest, w, b⟩ =
      (.ok (), st, ⟨rest,
        w ++ [addr ++ ("DIA A" ++ truncCrud 6 dstr) ++ "\r"]
          ++ [addr ++ "DIA A" ++ "\r"], b⟩) := by
  unfold Pump33.setdiameter1
  rw [if_neg hrange]
  dsimp only
  rw [p33_cmd_cons addr ("DIA A" ++ truncCrud 6 dstr) 5 r1 (r2 :: rest) w b hr1]
  dsimp only
  rw [if_pos ht]
  rw [p33_cmd_cons addr "DIA A" 15 r2 rest
    (w ++ [addr ++ ("DIA A" ++ truncCrud 6 dstr) ++ "\r"]) b hr2]
  dsimp only
  rw [hx, hy]
  dsimp only
  rw [if_pos hne]

theorem setdiameter2_mismatch (addr : String) (d : Dec) (dstr : String)
    (st : P33State) (r0 r1 r2 : String) (rest w : List String) (b : Bool)
    (x y : Dec)
    (hr0 : r0 ≠ "") (hm0 : pySlice r0 1 (-4) = "PRO")
    (hrange : ¬(Dec.ltb (Dec.ofInt 50) d ∨ Dec.ltb d ⟨1, 1⟩))
    (hr1 : r1 ≠ "") (ht : trailerOk r1 = true) (hr2 : r2 ≠ "")
    (hx : pyFloat (pySlice r2 1 (-4)) = some x)
    (hy : pyFloat (truncCrud 6 dstr) = some y)
    (hne : ¬ Dec.eqb x y) :
    Pump33.setdiameter2 addr d dstr st ⟨r0 :: r1 :: r2 :: rest, w, b⟩ =
      (.ok (), st, ⟨rest,
        w ++ [addr ++ "MOD" ++ "\r"]
          ++ [addr ++ ("DIA B" ++ truncCrud 6 dstr) ++ "\r"]
          ++ [addr ++ "DIA B" ++ "\r"], b⟩) := by
  unfold Pump33.setdiameter2
  rw [p33_cmd_cons addr "MOD" 15 r0 (r1 :: r2 :: rest) w b hr0]
  dsimp only
  rw [if_neg (by simp [hm0])]
  rw [if_neg hrange]
  rw [p33_cmd_cons addr ("DIA B" ++ truncCrud 6 dstr) 5 r1 (r2 :: rest)
    (w ++ [addr ++ "MOD" ++ "\r"]) b hr1]
  dsimp only
  rw [if_pos ht]
  rw [p33_cmd_cons addr "DIA B" 15 r2 rest
    (w ++ [addr ++ "MOD" ++ "\r"]
      ++ [addr ++ ("DIA B" ++ truncCrud 6 dstr) ++ "\r"]) b hr2]
  dsimp only
  rw [hx, hy]
  dsimp only
  rw [if_pos hne]

theorem setflowrate1_mismatch (addr fstr : String) (st : P33State)
    (r1 r2 : String) (rest w : List String) (b : Bool) (x y : Dec)
    (hr1 : r1 ≠ "") (ht : trailerOk r1 = true) (hr2 : r2 ≠ "")
    (hx : pyFloat (remove_crud (pySlice r2 1 7)) = some x)
    (hy : pyFloat (truncCrud 6 fstr) = some y)
    (hne : ¬ Dec.eqb x y) :
    Pump33.setflowrate1 addr fstr st ⟨r1 :: r2 :: rest, w, b⟩ =
      (.ok (), st, ⟨rest,
        w ++ [addr ++ ("RAT A" ++ truncCrud 6 fstr ++ "UM") ++ "\r"]
          ++ [addr ++ "RAT A" ++ "\r"], b⟩) := by
  unfold Pump33.setflowrate1
  dsimp only
  rw [p33_cmd_cons addr ("RAT A" ++ truncCrud 6 fstr ++ "UM") 5 r1
    (r2 :: rest) w b hr1]
  dsimp only
  rw [if_pos ht]
  rw [p33_cmd_cons addr "RAT A" 20 r2 rest
    (w ++ [addr ++ ("RAT A" ++ truncCrud 6 fstr ++ "UM") ++ "\r"]) b hr2]
  dsimp only
  rw [hx, hy]
  dsimp only
  rw [if_pos hne]

theorem setflowrate2_mismatch (addr fstr : String) (st : P33State)
    (r0 r1 r2 : String) (rest w : List String) (b : Bool) (x y : Dec)
    (hr0 : r0 ≠ "") (hm0 : pySlice r0 1 (-4) = "PRO")
    (hr1 : r1 ≠ "") (ht : trailerOk r1 = true) (hr2 : r2 ≠ "")
    (hx : pyFloat (remove_crud (pySlice r2 1 7)) = some x)
    (hy : pyFloat (truncCrud 6 fstr) = some y)
    (hne : ¬ Dec.eqb x y) :
    Pump33.setflowrate2 addr fstr st ⟨r0 :: r1 :: r2 :: rest, w, b⟩ =
      (.ok (), st, ⟨rest,
        w ++ [addr ++ "MOD" ++ "\r"]
          ++ [addr ++ ("RAT B" ++ truncCrud 6 fstr ++ "UM") ++ "\r"]
          ++ [addr ++ "RAT B" ++ "\r"], b⟩) := by
  unfold Pump33.setflowrate2
  rw [p33_cmd_cons addr "MOD" 15 r0 (r1 :: r2 :: rest) w b hr0]
  dsimp only
  rw [if_neg (by simp [hm0])]
  rw [p33_cmd_cons addr ("RAT B" ++ truncCrud 6 fstr ++ "UM") 5 r1
    (r2 :: rest) (w ++ [addr ++ "MOD" ++ "\r"]) b hr1]
  dsimp only
  rw [if_pos ht]
  rw [p33_cmd_cons addr "RAT B" 5 r2 rest
    (w ++ [addr ++ "MOD" ++ "\r"]
      ++ [addr ++ ("RAT B" ++ truncCrud 6 fstr ++ "UM") ++ "\r"]) b hr2]
  dsimp only
  rw [hx, hy]
  dsimp only
  rw [if_pos hne]

theorem mm_setflowrate_mismatch (fr : Int) (st : MMState) (r1 r2 : String)
    (rest w : List String) (b : Bool) (q : Dec)
    (hle : ¬ fr > 9999) (hr1 : r1 ≠ "")
    (h0 : pyGet r1 0 = some 'O') (h1 : pyGet r1 1 = some 'K')
    (_hlen : (pySlice r2 5 (-1)).data.length ≤ 5)
    (hq : pyFloat (pySlice r2 5 (-1)) = some q)
    (hne : intFloatMul1000 q ≠ fr) :
    MightyMini.setflowrate fr st ⟨r1 :: r2 :: rest, w, b⟩ =
      (.pumpError, st, ⟨rest, w ++ ["FM" ++ fmt04 fr] ++ ["CC"], b⟩) := by
  unfold MightyMini.setflowrate
  rw [if_neg hle]
  dsimp only
  simp only [chanWrite, chanRead]
  rw [if_neg hr1, h0]
  dsimp only
  rw [if_pos rfl, h1]
  dsimp only
  rw [if_pos rfl]
  rw [hq]
  dsimp only
  rw [if_pos hne]

/-- C4 fails as stated: MightyMini.setflowrate raises PumpError on a
verification mismatch (the CC report 0.150 litres per minute reads back
as int(float("0.150") * 1000) = 150 microlitres per minute against the
requested 100) instead of returning normally. -/
theorem claim_C4_counterexample :
    MightyMini.setflowrate 100 ⟨none⟩ ⟨["OK", "XXXXX0.150Y"], [], false⟩ =
      (.pumpError, ⟨none⟩, ⟨[], ["FM0100", "CC"], false⟩) := by decide

/-- C4 amended: on a verification mismatch Pump.setdiameter,
Pump.setflowrate and the four Pump33 numeric setters return normally
(only logging) with the cached field left unchanged, but
MightyMini.setflowrate raises PumpError on its mismatch (its cached field
is also left unchanged). The MightyMini readback integer is computed in
binary64 through intFloatMul1000, matching int(float(resp[5:-1]) * 1000);
the length hypothesis keeps the readback field within the five characters
an eleven-byte CC read can carry. -/
theorem claim_C4_verify_mismatch :
    (∀ (addr : String) (d : Dec) (dstr : String) (st : PumpState)
      (r1 r2 : String) (rest w : List String) (b : Bool),
      ¬(Dec.ltb (Dec.ofInt 35) d ∨ Dec.ltb d ⟨1, 1⟩) → r1 ≠ "" →
      trailerOk r1 = true → r2 ≠ "" →
      remove_crud (pySlice r2 3 9) ≠ Pump.truncDia dstr →
      Pump.setdiameter addr d dstr st ⟨r1 :: r2 :: rest, w, b⟩ =
        (.ok (), st, ⟨rest,
          w ++ [addr ++ ("MMD" ++ Pump.truncDia dstr) ++ "\r"]
            ++ [addr ++ "DIA" ++ "\r"], b⟩)) ∧
    (∀ (addr fstr : String) (st : PumpState) (r1 r2 : String)
      (rest w : List String) (b : Bool),
      r1 ≠ "" → trailerOk r1 = true → r2 ≠ "" →
      remove_crud (pySlice r2 2 8) ≠ truncCrud 5 fstr →
      Pump.setflowrate addr fstr st ⟨r1 :: r2 :: rest, w, b⟩ =
        (.ok (), st, ⟨rest,
          w ++ [addr ++ ("ULM" ++ truncCrud 5 fstr) ++ "\r"]
            ++ [addr ++ "RAT" ++ "\r"], b⟩)) ∧
    (∀ (addr : String) (d : Dec) (dstr : String) (st : P33State)
      (r1 r2 : String) (rest w : List String) (b : Bool) (x y : Dec),
      ¬(Dec.ltb (Dec.ofInt 50) d ∨ Dec.ltb d ⟨1, 1⟩) → r1 ≠ "" →
      trailerOk r1 = true → r2 ≠ "" →
      pyFloat (pySlice r2 1 (-4)) = some x →
      pyFloat (truncCrud 6 dstr) = some y → ¬ Dec.eqb x y →
      Pump33.setdiameter1 addr d dstr st ⟨r1 :: r2 :: rest, w, b⟩ =
        (.ok (), st, ⟨rest,
          w ++ [addr ++ ("DIA A" ++ truncCrud 6 dstr) ++ "\r"]
            ++ [addr ++ "DIA A" ++ "\r"], b⟩)) ∧
    (∀ (addr : String) (d : Dec) (dstr : String) (st : P33State)
      (r0 r1 r2 : String) (rest w : List String) (b : Bool) (x y : Dec),
      r0 ≠ "" → pySlice r0 1 (-4) = "PRO" →
      ¬(Dec.ltb (Dec.ofInt 50) d ∨ Dec.ltb d ⟨1, 1⟩) → r1 ≠ "" →
      trailerOk r1 = true → r2 ≠ "" →
      pyFloat (pySlice r2 1 (-4)) = some x →
      pyFloat (truncCrud 6 dstr) = some y → ¬ Dec.eqb x y →
      Pump33.setdiameter2 addr d dstr st ⟨r0 :: r1 :: r2 :: rest, w, b⟩ =
        (.ok (), st, ⟨rest,
          w ++ [addr ++ "MOD" ++ "\r"]
            ++ [addr ++ ("DIA B" ++ truncCrud 6 dstr) ++ "\r"]
            ++ [addr ++ "DIA B" ++ "\r"], b⟩)) ∧
    (∀ (addr fstr : String) (st : P33State) (r1 r2 : String)
      (rest w : List String) (b : Bool) (x y : Dec),
      r1 ≠ "" → trailerOk r1 = true → r2 ≠ "" →
      pyFloat (remove_crud (pySlice r2 1 7)) = some x →
      pyFloat (truncCrud 6 fstr) = some y → ¬ Dec.eqb x y →
      Pump33.setflowrate1 addr fstr st ⟨r1 :: r2 :: rest, w, b⟩ =
        (.ok (), st, ⟨rest,
          w ++ [addr ++ ("RAT A" ++ truncCrud 6 fstr ++ "UM") ++ "\r"]
            ++ [addr ++ "RAT A" ++ "\r"], b⟩)) ∧
    (∀ (addr fstr : String) (st : P33State) (r0 r1 r2 : String)
      (rest w : List String) (b : Bool) (x y : Dec),
      r0 ≠ "" → pySlice r0 1 (-4) = "PRO" →
      r1 ≠ "" → trailerOk r1 = true → r2 ≠ "" →
      pyFloat (remove_crud (pySlice r2 1 7)) = some x →
      pyFloat (truncCrud 6 fstr) = some y → ¬ Dec.eqb x y →
      Pump33.setflowrate2 addr fstr st ⟨r0 :: r1 :: r2 :: rest, w, b⟩ =
        (.ok (), st, ⟨rest,
          w ++ [addr ++ "MOD" ++ "\r"]
            ++ [addr ++ ("RAT B" ++ truncCrud 6 fstr ++ "UM") ++ "\r"]
            ++ [addr ++ "RAT B" ++ "\r"], b⟩)) ∧
    (∀ (fr : Int) (st : MMState) (r1 r2 : String) (rest w : List String)
      (b : Bool) (q : Dec),
      ¬ fr > 9999 → r1 ≠ "" →
      pyGet r1 0 = some 'O' → pyGet r1 1 = some 'K' →
      (pySlice r2 5 (-1)).data.length ≤ 5 →
      pyFloat (pySlice r2 5 (-1)) = some q →
      intFloatMul1000 q ≠ fr →
      MightyMini.setflowrate fr st ⟨r1 :: r2 :: rest, w, b⟩ =
        (.pumpError, st, ⟨rest, w ++ ["FM" ++ fmt04 fr] ++ ["CC"], b⟩)) :=
  ⟨setdiameter_mismatch, setflowrate_mismatch, setdiameter1_mismatch,
   setdiameter2_mismatch, setflowrate1_mismatch, setflowrate2_mismatch,
   mm_setflowrate_mismatch⟩

/-- Witness for C4: one concrete mismatching run per operation. -/
theorem claim_C4_witness :
    Pump.setdiameter "00" ⟨3, 0⟩ "3" PumpState.init
      ⟨["\n00:", "AAAAAAAAAA"], [], false⟩ =
      (.ok (), PumpState.init, ⟨[],
        [] ++ ["00" ++ ("MMD" ++ Pump.truncDia "3") ++ "\r"]
          ++ ["00" ++ "DIA" ++ "\r"], false⟩) ∧
    Pump.setflowrate "00" "100" PumpState.init
      ⟨["\n00:", "BBBBBBBBBB"], [], false⟩ =
      (.ok (), PumpState.init, ⟨[],
        [] ++ ["00" ++ ("ULM" ++ truncCrud 5 "100") ++ "\r"]
          ++ ["00" ++ "RAT" ++ "\r"], false⟩) ∧
    Pump33.setdiameter1 "00" ⟨3, 0⟩ "3" P33State.init
      ⟨["\n00:", "\n5.000\n00:"], [], false⟩ =
      (.ok (), P33State.init, ⟨[],
        [] ++ ["00" ++ ("DIA A" ++ truncCrud 6 "3") ++ "\r"]
          ++ ["00" ++ "DIA A" ++ "\r"], false⟩) ∧
    Pump33.setdiameter2 "00" ⟨3, 0⟩ "3" P33State.init
      ⟨["\nPRO\n00:", "\n00:", "\n5.000\n00:"], [], false⟩ =
      (.ok (), P33State.init, ⟨[],
        [] ++ ["00" ++ "MOD" ++ "\r"]
          ++ ["00" ++ ("DIA B" ++ truncCrud 6 "3") ++ "\r"]
          ++ ["00" ++ "DIA B" ++ "\r"], false⟩) ∧
    Pump33.setflowrate1 "00" "100" P33State.init
      ⟨["\n00:", "\n5.0000\n00:"], [], false⟩ =
      (.ok (), P33State.init, ⟨[],
        [] ++ ["00" ++ ("RAT A" ++ truncCrud 6 "100" ++ "UM") ++ "\r"]
          ++ ["00" ++ "RAT A" ++ "\r"], false⟩) ∧
    Pump33.setflowrate2 "00" "100" P33State.init
      ⟨["\nPRO\n00:", "\n00:", "\n5.0000\n00:"], [], false⟩ =
      (.ok (), P33State.init, ⟨[],
        [] ++ ["00" ++ "MOD" ++ "\r"]
          ++ ["00" ++ ("RAT B" ++ truncCrud 6 "100" ++ "UM") ++ "\r"]
          ++ ["00" ++ "RAT B" ++ "\r"], false⟩) ∧
    MightyMini.setflowrate 100 ⟨none⟩ ⟨["OK", "XXXXX0.150Y"], [], false⟩ =
      (.pumpError, ⟨none⟩, ⟨[], [] ++ ["FM" ++ fmt04 100] ++ ["CC"], false⟩) :=
  ⟨claim_C4_verify_mismatch.1 "00" ⟨3, 0⟩ "3" PumpState.init "\n00:"
      "AAAAAAAAAA" [] [] false (by decide) (by decide) (by decide) (by decide)
      (by decide),
   claim_C4_verify_mismatch.2.1 "00" "100" PumpState.init "\n00:"
      "BBBBBBBBBB" [] [] false (by decide) (by decide) (by decide) (by decide),
   claim_C4_verify_mismatch.2.2.1 "00" ⟨3, 0⟩ "3" P33State.init "\n00:"
      "\n5.000\n00:" [] [] false ⟨5000, 3⟩ ⟨3, 0⟩ (by decide) (by decide)
      (by decide) (by decide) (by decide) (by decide) (by decide),
   claim_C4_verify_mismatch.2.2.2.1 "00" ⟨3, 0⟩ "3" P33State.init
      "\nPRO\n00:" "\n00:" "\n5.000\n00:" [] [] false ⟨5000, 3⟩ ⟨3, 0⟩
      (by decide) (by decide) (by decide) (by decide) (by decide) (by decide)
      (by decide) (by decide) (by decide),
   claim_C4_verify_mismatch.2.2.2.2.1 "00" "100" P33State.init "\n00:"
      "\n5.0000\n00:" [] [] false ⟨5, 0⟩ ⟨100, 0⟩ (by decide) (by decide)
      (by decide) (by decide) (by decide) (by decide),
   claim_C4_verify_mismatch.2.2.2.2.2.1 "00" "100" P33State.init
      "\nPRO\n00:" "\n00:" "\n5.0000\n00:" [] [] false ⟨5, 0⟩ ⟨100, 0⟩
      (by decide) (by decide) (by decide) (by decide) (by decide) (by decide)
      (by decide) (by decide),
   claim_C4_verify_mismatch.2.2.2.2.2.2 100 ⟨none⟩ "OK" "XXXXX0.150Y" [] []
      false ⟨150, 3⟩ (by decide) (by decide) (by decide) (by decide)
      (by decide) (by decide) (by decide)⟩

/-- C10: in the direction-correction loop of Pump.infuse every response
after the first is read with serial.read directly, bypassing the
zero-length guard of Pump.read: after a REV re-issue an empty read makes
the resp[-1] access raise IndexError instead of the NoResponse PumpError,
while an empty first response does raise the guarded PumpError. -/
theorem claim_C10_infuse_unguarded :
    Pump.infuse "00" ⟨["ab<"], [], false⟩ =
      (.indexError, ⟨[], ["00RUN\r", "00REV\r"], false⟩) ∧
    Pump.infuse "00" ⟨[], [], false⟩ =
      (.pumpError, ⟨[], ["00RUN\r"], false⟩) := by decide

end Pumpy
